import Mathlib

/-!
Shallow embedding of the `bevy_symbios_texture` crate and proofs of the
specification claims.  Pure functions from the Rust source are translated
into Lean functions over `ℝ` (for `f64`/`f32` values) and `ℕ` (for byte and
index values); external noise functions (the `noise` crate) appear as
explicit function parameters.
-/

open Real

namespace SymbiosTexture

/-! ## Embedding of `src/noise.rs` -/

/-- `std::f64::consts::TAU`. -/
noncomputable def TAU : ℝ := 2 * Real.pi

/-- Embeds `ToroidalNoise<N>`: a wrapped 4-input noise function together with
the torus radius `frequency`.  The external `NoiseFn<f64, 4>` is the function
field `noise`. -/
structure ToroidalNoise where
  noise : ℝ → ℝ → ℝ → ℝ → ℝ
  frequency : ℝ

/-- `ToroidalNoise::get` from `src/noise.rs`: map `(u, v)` onto the 4D torus
and evaluate the wrapped noise there. -/
noncomputable def ToroidalNoise.get (tn : ToroidalNoise) (u v : ℝ) : ℝ :=
  tn.noise (Real.cos (TAU * u) * tn.frequency) (Real.sin (TAU * u) * tn.frequency)
    (Real.cos (TAU * v) * tn.frequency) (Real.sin (TAU * v) * tn.frequency)

/-- `ToroidalNoise::get_offset`. -/
noncomputable def ToroidalNoise.get_offset (tn : ToroidalNoise) (u v du dv : ℝ) : ℝ :=
  tn.get (u + du) (v + dv)

/-- `ToroidalNoise::get_precomputed`: sample at pre-projected 4D coordinates. -/
def ToroidalNoise.get_precomputed (tn : ToroidalNoise) (nx ny nz nw : ℝ) : ℝ :=
  tn.noise nx ny nz nw

/-- The per-column cosine lookup table entry of `sample_grid`:
`(TAU * x as f64 / w as f64).cos() * freq`. -/
noncomputable def col_cos (freq : ℝ) (w x : ℕ) : ℝ := Real.cos (TAU * x / w) * freq

/-- The per-column sine lookup table entry of `sample_grid`. -/
noncomputable def col_sin (freq : ℝ) (w x : ℕ) : ℝ := Real.sin (TAU * x / w) * freq

/-- `sample_grid` from `src/noise.rs`: iterate the `width × height` grid in
row-major order, composing each sample from the per-column and per-row
cos/sin lookup tables. -/
noncomputable def sample_grid (tn : ToroidalNoise) (width height : ℕ) : List ℝ :=
  (List.range height).flatMap fun y =>
    (List.range width).map fun x =>
      tn.get_precomputed (col_cos tn.frequency width x) (col_sin tn.frequency width x)
        (col_cos tn.frequency height y) (col_sin tn.frequency height y)

/-- `normalize` from `src/noise.rs`: map a raw sample from `[-1,1]` to `[0,1]`. -/
noncomputable def noise_normalize (v : ℝ) : ℝ := v * 0.5 + 0.5

/-! Row-major indexing into a flattened grid built as
`(List.range h).flatMap fun y => (List.range w).map (g y)`. -/

theorem flatMap_map_getElem {α : Type} (g : ℕ → ℕ → α) (w : ℕ) :
    ∀ (ys : List ℕ) (y : ℕ) (x : ℕ) (hy : y < ys.length) (_hx : x < w),
      ((ys.flatMap fun y => (List.range w).map (g y))[y * w + x]? =
        some (g (ys.get ⟨y, hy⟩) x)) := by
  intro ys
  induction ys with
  | nil => intro y x hy hx; simp at hy
  | cons a t ih =>
    intro y x hy hx
    cases y with
    | zero =>
      simp only [List.flatMap_cons, Nat.zero_mul, Nat.zero_add]
      rw [List.getElem?_append_left (by simpa using hx)]
      simp [hx]
    | succ n =>
      simp only [List.flatMap_cons]
      rw [List.getElem?_append_right (by simp; nlinarith)]
      have harr : (n + 1) * w + x - ((List.range w).map (g a)).length = n * w + x := by
        simp; ring_nf; omega
      rw [harr]
      have := ih n x (by simpa using hy) hx
      simpa using this

/-- C3 helper: the 4D torus coordinates at `u = 0` and `u = 1` coincide. -/
theorem get_zero_eq_get_one (tn : ToroidalNoise) (v : ℝ) :
    tn.get 0 v = tn.get 1 v := by
  unfold ToroidalNoise.get TAU
  rw [mul_zero, mul_one, Real.cos_zero, Real.sin_zero, Real.cos_two_pi, Real.sin_two_pi]

/-- C3 helper: the 4D torus coordinates at `v = 0` and `v = 1` coincide. -/
theorem get_vzero_eq_get_vone (tn : ToroidalNoise) (u : ℝ) :
    tn.get u 0 = tn.get u 1 := by
  unfold ToroidalNoise.get TAU
  rw [mul_zero, mul_one, Real.cos_zero, Real.sin_zero, Real.cos_two_pi, Real.sin_two_pi]

/-- C3: for every wrapped noise function, every frequency and every `v ∈ [0,1]`,
`|get(0,v) - get(1,v)| < 1e-10`, and symmetrically `|get(u,0) - get(u,1)| < 1e-10`
for every `u ∈ [0,1]`: `u=0` and `u=1` (likewise `v`) map to the identical 4D
torus coordinate, so the difference is in fact exactly zero. -/
theorem toroidal_noise_seamless (tn : ToroidalNoise) (u v : ℝ)
    (_hu0 : 0 ≤ u) (_hu1 : u ≤ 1) (_hv0 : 0 ≤ v) (_hv1 : v ≤ 1) :
    |tn.get 0 v - tn.get 1 v| < 1 / 10 ^ 10 ∧
      |tn.get u 0 - tn.get u 1| < 1 / 10 ^ 10 := by
  rw [get_zero_eq_get_one tn v, get_vzero_eq_get_vone tn u]
  simp only [sub_self, abs_zero]
  norm_num

/-- Witness for C3 at a concrete noise function, frequency and coordinates. -/
theorem toroidal_noise_seamless_witness :
    |ToroidalNoise.get ⟨fun a _ _ _ => a, 3⟩ 0 (1/2) -
        ToroidalNoise.get ⟨fun a _ _ _ => a, 3⟩ 1 (1/2)| < 1 / 10 ^ 10 ∧
      |ToroidalNoise.get ⟨fun a _ _ _ => a, 3⟩ (1/2) 0 -
        ToroidalNoise.get ⟨fun a _ _ _ => a, 3⟩ (1/2) 1| < 1 / 10 ^ 10 :=
  toroidal_noise_seamless ⟨fun a _ _ _ => a, 3⟩ (1/2) (1/2)
    (by norm_num) (by norm_num) (by norm_num) (by norm_num)

/-- C4: the batch grid sampler agrees with direct evaluation: for every wrapped
noise function, `W, H > 0` and pixel `(x, y)` with `x < W`, `y < H`, the entry
`sample_grid(noise, W, H)[y*W + x]` equals `noise.get(x/W, y/H)`. -/
theorem sample_grid_eq_direct (tn : ToroidalNoise) (W H x y : ℕ)
    (hW : 0 < W) (hH : 0 < H) (hx : x < W) (hy : y < H) :
    (sample_grid tn W H)[y * W + x]? = some (tn.get (x / W) (y / H)) := by
  unfold sample_grid
  rw [flatMap_map_getElem _ W (List.range H) y x (by simpa using hy) hx]
  congr 1
  simp only [List.get_eq_getElem, List.getElem_range]
  unfold ToroidalNoise.get_precomputed ToroidalNoise.get col_cos col_sin
  have hWne : (W : ℝ) ≠ 0 := by positivity
  have hHne : (H : ℝ) ≠ 0 := by positivity
  rw [mul_div_assoc, mul_div_assoc]

/-- Witness for C4 at a concrete noise function and grid position. -/
theorem sample_grid_eq_direct_witness :
    (sample_grid ⟨fun a b c d => a + b + c + d, 2⟩ 2 3)[2 * 2 + 1]? =
      some (ToroidalNoise.get ⟨fun a b c d => a + b + c + d, 2⟩ (1 / 2) (2 / 3)) := by
  have := sample_grid_eq_direct ⟨fun a b c d => a + b + c + d, 2⟩ 2 3 1 2
    (by norm_num) (by norm_num) (by norm_num) (by norm_num)
  simpa using this

/-! ## Embedding of `src/normal.rs` -/

/-- `f64::clamp`: `x.clamp(lo, hi) = min (max x lo) hi`. -/
noncomputable def clampR (x lo hi : ℝ) : ℝ := min (max x lo) hi

/-- `BoundaryMode` from `src/normal.rs`. -/
inductive BoundaryMode where
  | Wrap : BoundaryMode
  | Clamp : BoundaryMode
deriving DecidableEq

/-- `encode_normal`: `((n * 0.5 + 0.5).clamp(0.0, 1.0) * 255.0).round() as u8`. -/
noncomputable def encode_normal (n : ℝ) : ℕ :=
  (round (clampR (n * 0.5 + 0.5) 0 1 * 255)).toNat

/-- The body of the per-pixel loop of `height_to_normal`: compute the four
neighbour indices according to the boundary mode, form the central (or
one-sided) differences, and encode `normalize(-dx, dy, 1)` as four bytes. -/
noncomputable def normal_pixel (heights : List ℝ) (w h : ℕ) (s : ℝ)
    (boundary : BoundaryMode) (x y : ℕ) : List ℕ :=
  let xm : ℕ := match boundary with
    | .Wrap => (x + w - 1) % w
    | .Clamp => x - 1
  let xp : ℕ := match boundary with
    | .Wrap => (x + 1) % w
    | .Clamp => min (x + 1) (w - 1)
  let ym : ℕ := match boundary with
    | .Wrap => (y + h - 1) % h
    | .Clamp => y - 1
  let yp : ℕ := match boundary with
    | .Wrap => (y + 1) % h
    | .Clamp => min (y + 1) (h - 1)
  let left := heights.getD (y * w + xm) 0
  let right := heights.getD (y * w + xp) 0
  let above := heights.getD (ym * w + x) 0
  let below := heights.getD (yp * w + x) 0
  let x_dist : ℝ := match boundary with
    | .Wrap => 2
    | .Clamp => (max (xp - xm) 1 : ℕ)
  let y_dist : ℝ := match boundary with
    | .Wrap => 2
    | .Clamp => (max (yp - ym) 1 : ℕ)
  let dx := (right - left) * s * w / x_dist
  let dy := (below - above) * s * h / y_dist
  let len := Real.sqrt (dx * dx + dy * dy + 1)
  [encode_normal (-dx / len), encode_normal (dy / len), encode_normal (1 / len), 255]

/-- `height_to_normal` from `src/normal.rs`: empty output for degenerate
dimensions, otherwise one RGBA8 pixel per texel in row-major order. -/
noncomputable def height_to_normal (heights : List ℝ) (width height : ℕ)
    (strength : ℝ) (boundary : BoundaryMode) : List ℕ :=
  if width = 0 ∨ height = 0 then [] else
    (List.range height).flatMap fun y =>
      (List.range width).flatMap fun x =>
        normal_pixel heights width height strength boundary x y

/-- `dilate_heights` from `src/normal.rs`: each transparent pixel
(`albedo[idx*4+3] == 0`) with at least one opaque 4-neighbour takes the average
of its opaque 4-neighbours; all other pixels keep their original value.  Every
read is from the original `heights`, so the loop is a pure map over pixels. -/
noncomputable def dilate_heights (heights : List ℝ) (albedo : List ℕ)
    (w h : ℕ) : List ℝ :=
  (List.range h).flatMap fun y =>
    (List.range w).map fun x =>
      let idx := y * w + x
      if albedo.getD (idx * 4 + 3) 0 ≠ 0 then
        heights.getD idx 0
      else
        let nbrs := ([((-1 : ℤ), (0 : ℤ)), (1, 0), (0, -1), (0, 1)].filterMap
          fun d =>
            let ny : ℤ := (y : ℤ) + d.1
            let nx : ℤ := (x : ℤ) + d.2
            if ny < 0 ∨ (h : ℤ) ≤ ny ∨ nx < 0 ∨ (w : ℤ) ≤ nx then none
            else
              let nidx := ny.toNat * w + nx.toNat
              if albedo.getD (nidx * 4 + 3) 0 ≠ 0 then some (heights.getD nidx 0)
              else none)
        if 0 < nbrs.length then nbrs.sum / nbrs.length else heights.getD idx 0

/-- C10: `height_to_normal` is total on degenerate dimensions: when the width
or the height is zero it returns the empty byte vector, for every height
slice, strength and boundary mode. -/
theorem height_to_normal_degenerate (heights : List ℝ) (width height : ℕ)
    (strength : ℝ) (boundary : BoundaryMode)
    (hdeg : width = 0 ∨ height = 0) :
    height_to_normal heights width height strength boundary = [] := by
  unfold height_to_normal
  simp [hdeg]

/-- Witness for C10: a zero width with a nonempty height slice. -/
theorem height_to_normal_degenerate_witness :
    height_to_normal [1/2, 1/2, 1/2] 0 3 (3 : ℝ) BoundaryMode.Clamp = [] :=
  height_to_normal_degenerate [1/2, 1/2, 1/2] 0 3 3 BoundaryMode.Clamp (Or.inl rfl)

/-- C2: silhouette dilation is observable: on the 2×1 image whose left pixel is
transparent (alpha 0) and whose right pixel is opaque with height 1, the left
height 0.5 is replaced by the opaque neighbour average 1.  The card generators
in `src/leaf.rs` and `src/twig.rs` never call `dilate_heights` (and pass no
`BoundaryMode` to `height_to_normal` at all), so the pipeline they implement
differs from this specified one. -/
theorem dilate_heights_not_identity :
    dilate_heights [1/2, 1] [0, 0, 0, 0, 0, 0, 0, 255] 2 1 = [1, 1] := by
  unfold dilate_heights
  norm_num [List.range_succ, List.filterMap]

/-! ## Embedding of `src/generator.rs` -/

/-- `TextureError` from `src/generator.rs`. -/
inductive TextureError where
  | ZeroDimension (width height : ℕ) : TextureError
  | DimensionTooLarge (width height max : ℕ) : TextureError
deriving DecidableEq

/-- `MAX_DIMENSION = 4096`. -/
def MAX_DIMENSION : ℕ := 4096

/-- `validate_dimensions` from `src/generator.rs`: zero check first, then the
`MAX_DIMENSION` ceiling. -/
def validate_dimensions (width height : ℕ) : Except TextureError Unit :=
  if width = 0 ∨ height = 0 then
    Except.error (TextureError.ZeroDimension width height)
  else if MAX_DIMENSION < width ∨ MAX_DIMENSION < height then
    Except.error (TextureError.DimensionTooLarge width height MAX_DIMENSION)
  else Except.ok ()

/-- `TextureMap`: the three RGBA8 byte buffers plus dimensions. -/
structure TextureMap where
  albedo : List ℕ
  normal : List ℕ
  roughness : List ℕ
  width : ℕ
  height : ℕ

/-- A saturating `f32 → u8` cast following a `.round()`, as in
`(x * 255.0).round() as u8`. -/
noncomputable def u8round (x : ℝ) : ℕ := min ((round x).toNat) 255

/-- `srgb_to_linear` from `src/generator.rs` (the function the 256-entry LUT
tabulates): decode an sRGB byte to linear light. -/
noncomputable def srgb_to_linear (v : ℕ) : ℝ :=
  let c : ℝ := v / 255
  if c ≤ 0.04045 then c / 12.92 else ((c + 0.055) / 1.055) ^ (2.4 : ℝ)

/-- `linear_to_srgb` from `src/generator.rs`: quantise the clamped input to the
nearest of 4096 bins, then encode the bin's value with the sRGB transfer curve
and round to a byte. -/
noncomputable def linear_to_srgb (linear : ℝ) : ℕ :=
  let i : ℕ := (round (clampR linear 0 1 * 4095)).toNat
  let c : ℝ := i / 4095
  let encoded := if c ≤ 0.0031308 then c * 12.92 else 1.055 * c ^ ((1 : ℝ) / 2.4) - 0.055
  u8round (encoded * 255)

/-- `MipmapMode` from `src/generator.rs`. -/
inductive MipmapMode where
  | Srgb : MipmapMode
  | Normal : MipmapMode
  | Linear : MipmapMode
deriving DecidableEq

/-- An RGBA8 pixel `[u8; 4]`. -/
abbrev Px : Type := ℕ × ℕ × ℕ × ℕ

/-- `average_block` from `src/generator.rs`: average a block of up to four
RGBA8 pixels according to the mipmap mode. -/
noncomputable def average_block (pixels : List Px) (mode : MipmapMode) : Px :=
  match mode with
  | .Linear =>
    let count := pixels.length
    ((pixels.map fun p => p.1).sum / count,
     (pixels.map fun p => p.2.1).sum / count,
     (pixels.map fun p => p.2.2.1).sum / count,
     (pixels.map fun p => p.2.2.2).sum / count)
  | .Srgb =>
    let n : ℝ := pixels.length
    let r := (pixels.map fun p => srgb_to_linear p.1).sum
    let g := (pixels.map fun p => srgb_to_linear p.2.1).sum
    let b := (pixels.map fun p => srgb_to_linear p.2.2.1).sum
    let a := (pixels.map fun p => p.2.2.2).sum
    (linear_to_srgb (r / n), linear_to_srgb (g / n), linear_to_srgb (b / n),
     a / pixels.length)
  | .Normal =>
    let n : ℝ := pixels.length
    let nx := (pixels.map fun p => (p.1 : ℝ) / 127.5 - 1).sum / n
    let ny := (pixels.map fun p => (p.2.1 : ℝ) / 127.5 - 1).sum / n
    let nz := (pixels.map fun p => (p.2.2.1 : ℝ) / 127.5 - 1).sum / n
    let len := max (Real.sqrt (nx * nx + ny * ny + nz * nz)) 0.000001
    ((round (clampR (nx / len * 0.5 + 0.5) 0 1 * 255)).toNat,
     (round (clampR (ny / len * 0.5 + 0.5) 0 1 * 255)).toNat,
     (round (clampR (nz / len * 0.5 + 0.5) 0 1 * 255)).toNat, 255)

/-- The source 2×2 block (clamped at the image boundary) feeding target pixel
`(x, y)` of the next mip level, read from the previous level `prev` of size
`cw × ch`: the in-bounds subset of `{(sy+dy, sx+dx) | dy, dx ∈ {0,1}}` in the
source's iteration order. -/
def mip_block (prev : List Px) (cw ch x y : ℕ) : List Px :=
  ([(0, 0), (0, 1), (1, 0), (1, 1)].filter fun d : ℕ × ℕ =>
      decide (y * 2 + d.1 < ch) && decide (x * 2 + d.2 < cw)).map
    fun d => prev.getD ((y * 2 + d.1) * cw + (x * 2 + d.2)) (0, 0, 0, 0)

/-- One iteration of the `while` loop of `generate_mipmaps`: box-filter the
`cw × ch` level down to `max(cw,2)/2 × max(ch,2)/2`. -/
noncomputable def next_mip_level (prev : List Px) (cw ch : ℕ) (mode : MipmapMode) :
    List Px :=
  (List.range (max ch 2 / 2)).flatMap fun y =>
    (List.range (max cw 2 / 2)).map fun x =>
      average_block (mip_block prev cw ch x y) mode

/-- The full mip chain of `generate_mipmaps` as a list of levels (level 0
first); the loop runs while either dimension exceeds 1, and the source buffer
regions delimited by `prev_offset`/`next_offset` are exactly these levels. -/
noncomputable def mip_chain (mode : MipmapMode) (level : List Px) (w h : ℕ) :
    List (List Px) :=
  if w ≤ 1 ∧ h ≤ 1 then [level]
  else level :: mip_chain mode (next_mip_level level w h mode) (max w 2 / 2) (max h 2 / 2)
termination_by max w 1 + max h 1
decreasing_by
  have hw2 : w ≤ 1 → max (max w 2 / 2) 1 = max w 1 := by
    intro h1
    interval_cases w <;> simp
  have hh2 : h ≤ 1 → max (max h 2 / 2) 1 = max h 1 := by
    intro h1
    interval_cases h <;> simp
  have hw3 : 2 ≤ w → max (max w 2 / 2) 1 < max w 1 := by
    intro h2
    rw [Nat.max_eq_left h2, Nat.max_eq_left (by omega), Nat.max_eq_left (by omega)]
    exact Nat.div_lt_self (by omega) (by omega)
  have hh3 : 2 ≤ h → max (max h 2 / 2) 1 < max h 1 := by
    intro h2
    rw [Nat.max_eq_left h2, Nat.max_eq_left (by omega), Nat.max_eq_left (by omega)]
    exact Nat.div_lt_self (by omega) (by omega)
  rcases Nat.lt_or_ge w 2 with hw | hw
  · have hh : 2 ≤ h := by omega
    have h1 := hw2 (by omega)
    have h2 := hh3 hh
    omega
  · have h1 := hw3 hw
    rcases Nat.lt_or_ge h 2 with hh | hh
    · have h2 := hh2 (by omega)
      omega
    · have h2 := hh3 hh
      omega

/-- The mip level count returned by `generate_mipmaps` (including level 0). -/
noncomputable def mip_level_count (mode : MipmapMode) (level : List Px) (w h : ℕ) : ℕ :=
  (mip_chain mode level w h).length

/-! ## Embedding of `src/bark.rs` -/

/-- The `lerp` helper shared by the generators: `a + (b - a) * t.clamp(0,1)`. -/
noncomputable def lerp (a b t : ℝ) : ℝ := a + (b - a) * clampR t 0 1

/-- `BarkConfig` from `src/bark.rs` (colours as linear RGB triples). -/
structure BarkConfig where
  seed : ℕ
  scale : ℝ
  octaves : ℕ
  warp_u : ℝ
  warp_v : ℝ
  color_light : ℝ × ℝ × ℝ
  color_dark : ℝ × ℝ × ℝ
  normal_strength : ℝ
  furrow_multiplier : ℝ
  furrow_scale_u : ℝ
  furrow_scale_v : ℝ
  furrow_shape : ℝ

/-- `Default for BarkConfig`. -/
noncomputable def BarkConfig.default : BarkConfig where
  seed := 42
  scale := 4
  octaves := 6
  warp_u := 0.15
  warp_v := 0.55
  color_light := (0.45, 0.28, 0.14)
  color_dark := (0.18, 0.10, 0.05)
  normal_strength := 3
  furrow_multiplier := 0.55
  furrow_scale_u := 2
  furrow_scale_v := 0.25
  furrow_shape := 0.4

/-- `bilinear_sample_torus` from `src/bark.rs`: wrap the UV into `[0,1)` with
`rem_euclid`, convert to fractional pixel coordinates and bilinearly blend the
four surrounding grid values with toroidal wrap-around. -/
noncomputable def bilinear_sample_torus (grid : List ℝ) (w h : ℕ) (u v : ℝ) : ℝ :=
  let u' := Int.fract u
  let v' := Int.fract v
  let px := u' * w
  let py := v' * h
  let x0 := (⌊px⌋).toNat % w
  let y0 := (⌊py⌋).toNat % h
  let x1 := (x0 + 1) % w
  let y1 := (y0 + 1) % h
  let fx := Int.fract px
  let fy := Int.fract py
  let v00 := grid.getD (y0 * w + x0) 0
  let v10 := grid.getD (y0 * w + x1) 0
  let v01 := grid.getD (y1 * w + x0) 0
  let v11 := grid.getD (y1 * w + x1) 0
  v00 * (1 - fx) * (1 - fy) + v10 * fx * (1 - fy) + v01 * (1 - fx) * fy + v11 * fx * fy

/-- The warped, blended height value of one bark pixel (`t_final` in the
source): domain-warped FBM fibre blended with the anisotropic Worley plate
layer.  `warpU`, `warpV`, `base` and `worley` are the external noise
functions; the torus lookup tables are the ones precomputed in `generate`. -/
noncomputable def bark_t (warpU warpV base : ℝ → ℝ → ℝ → ℝ → ℝ) (c : BarkConfig)
    (w h x y : ℕ) : ℝ :=
  let nx := col_cos c.scale w x
  let ny := col_sin c.scale w x
  let nz := col_cos c.scale h y
  let nw := col_sin c.scale h y
  let u : ℝ := x / w
  let v : ℝ := y / h
  let du := (ToroidalNoise.mk warpU c.scale).get_precomputed nx ny nz nw * c.warp_u
  let dv := (ToroidalNoise.mk warpV c.scale).get_precomputed nx ny nz nw * c.warp_v
  let base_grid := sample_grid (ToroidalNoise.mk base c.scale) w h
  noise_normalize (bilinear_sample_torus base_grid w h (u + du) (v + dv))

/-- The Worley plate height of one bark pixel (`plate_height` in the source). -/
noncomputable def bark_plate (worley : ℝ → ℝ → ℝ → ℝ → ℝ) (c : BarkConfig)
    (w h x y : ℕ) : ℝ :=
  let f_nx := col_cos (c.scale * c.furrow_scale_u) w x
  let f_ny := col_sin (c.scale * c.furrow_scale_u) w x
  let f_nz := col_cos (c.scale * c.furrow_scale_v) h y
  let f_nw := col_sin (c.scale * c.furrow_scale_v) h y
  let furrow_raw := worley f_nx f_ny f_nz f_nw
  let furrow_norm := clampR (0.5 - furrow_raw * 0.5) 0 1
  furrow_norm ^ (c.furrow_shape : ℝ)

/-- The bark height field (`heights` in `BarkGenerator::generate`). -/
noncomputable def bark_heights (warpU warpV base worley : ℝ → ℝ → ℝ → ℝ → ℝ)
    (c : BarkConfig) (w h : ℕ) : List ℝ :=
  (List.range h).flatMap fun y =>
    (List.range w).map fun x =>
      bark_t warpU warpV base c w h x y * (1 - c.furrow_multiplier) +
        bark_plate worley c w h x y * c.furrow_multiplier

/-- The bark albedo buffer: colour lerp between dark and light by `t`. -/
noncomputable def bark_albedo (warpU warpV base : ℝ → ℝ → ℝ → ℝ → ℝ)
    (c : BarkConfig) (w h : ℕ) : List ℕ :=
  (List.range h).flatMap fun y =>
    (List.range w).flatMap fun x =>
      let t := bark_t warpU warpV base c w h x y
      [linear_to_srgb (lerp c.color_dark.1 c.color_light.1 t),
       linear_to_srgb (lerp c.color_dark.2.1 c.color_light.2.1 t),
       linear_to_srgb (lerp c.color_dark.2.2 c.color_light.2.2 t),
       255]

/-- The bark ORM buffer: occlusion 255, roughness rising as `t` falls, metallic 0. -/
noncomputable def bark_roughness (warpU warpV base : ℝ → ℝ → ℝ → ℝ → ℝ)
    (c : BarkConfig) (w h : ℕ) : List ℕ :=
  (List.range h).flatMap fun y =>
    (List.range w).flatMap fun x =>
      let t := bark_t warpU warpV base c w h x y
      [255, u8round ((0.6 + (1 - t) * 0.35) * 255), 0, 255]

/-- The successful result of `BarkGenerator::generate`. -/
noncomputable def bark_map (warpU warpV base worley : ℝ → ℝ → ℝ → ℝ → ℝ)
    (c : BarkConfig) (width height : ℕ) : TextureMap where
  albedo := bark_albedo warpU warpV base c width height
  normal := height_to_normal (bark_heights warpU warpV base worley c width height)
    width height c.normal_strength BoundaryMode.Wrap
  roughness := bark_roughness warpU warpV base c width height
  width := width
  height := height

/-- `BarkGenerator::generate` from `src/bark.rs`: dimension validation first,
then the pixel pipeline. -/
noncomputable def bark_generate (warpU warpV base worley : ℝ → ℝ → ℝ → ℝ → ℝ)
    (c : BarkConfig) (width height : ℕ) : Except TextureError TextureMap :=
  match validate_dimensions width height with
  | .error e => .error e
  | .ok _ => .ok (bark_map warpU warpV base worley c width height)

/-! ## Embedding of `src/rock.rs` -/

/-- `RockConfig` from `src/rock.rs`. -/
structure RockConfig where
  seed : ℕ
  scale : ℝ
  octaves : ℕ
  attenuation : ℝ
  color_light : ℝ × ℝ × ℝ
  color_dark : ℝ × ℝ × ℝ
  normal_strength : ℝ

/-- `Default for RockConfig`. -/
noncomputable def RockConfig.default : RockConfig where
  seed := 7
  scale := 3
  octaves := 8
  attenuation := 2
  color_light := (0.37, 0.42, 0.36)
  color_dark := (0.22, 0.20, 0.18)
  normal_strength := 4

/-- The rock albedo buffer, indexed over the enumerated `heights` grid. -/
noncomputable def rock_albedo (ridged : ℝ → ℝ → ℝ → ℝ → ℝ) (c : RockConfig)
    (w h : ℕ) : List ℕ :=
  (sample_grid (ToroidalNoise.mk ridged c.scale) w h).flatMap fun height =>
    let t := noise_normalize height
    [linear_to_srgb (lerp c.color_dark.1 c.color_light.1 t),
     linear_to_srgb (lerp c.color_dark.2.1 c.color_light.2.1 t),
     linear_to_srgb (lerp c.color_dark.2.2 c.color_light.2.2 t),
     255]

/-- The rock ORM buffer. -/
noncomputable def rock_roughness (ridged : ℝ → ℝ → ℝ → ℝ → ℝ) (c : RockConfig)
    (w h : ℕ) : List ℕ :=
  (sample_grid (ToroidalNoise.mk ridged c.scale) w h).flatMap fun height =>
    let t := noise_normalize height
    [255, u8round (clampR (0.75 - t * 0.25) 0 1 * 255), 0, 255]

/-- The successful result of `RockGenerator::generate`: heights come straight
from `sample_grid`; the normal-map strength is halved because the ridged field
is in `[-1, 1]`. -/
noncomputable def rock_map (ridged : ℝ → ℝ → ℝ → ℝ → ℝ) (c : RockConfig)
    (width height : ℕ) : TextureMap where
  albedo := rock_albedo ridged c width height
  normal := height_to_normal (sample_grid (ToroidalNoise.mk ridged c.scale) width height)
    width height (c.normal_strength * 0.5) BoundaryMode.Wrap
  roughness := rock_roughness ridged c width height
  width := width
  height := height

/-- `RockGenerator::generate` from `src/rock.rs`. -/
noncomputable def rock_generate (ridged : ℝ → ℝ → ℝ → ℝ → ℝ) (c : RockConfig)
    (width height : ℕ) : Except TextureError TextureMap :=
  match validate_dimensions width height with
  | .error e => .error e
  | .ok _ => .ok (rock_map ridged c width height)

/-! ## Embedding of `src/ground.rs` -/

/-- `GroundConfig` from `src/ground.rs`. -/
structure GroundConfig where
  seed : ℕ
  macro_scale : ℝ
  macro_octaves : ℕ
  micro_scale : ℝ
  micro_octaves : ℕ
  micro_weight : ℝ
  color_dry : ℝ × ℝ × ℝ
  color_moist : ℝ × ℝ × ℝ
  normal_strength : ℝ

/-- `Default for GroundConfig`. -/
noncomputable def GroundConfig.default : GroundConfig where
  seed := 13
  macro_scale := 2
  macro_octaves := 5
  micro_scale := 8
  micro_octaves := 4
  micro_weight := 0.35
  color_dry := (0.52, 0.40, 0.26)
  color_moist := (0.28, 0.20, 0.12)
  normal_strength := 2

/-- The blended ground height of one pixel (`t` in the source). -/
noncomputable def ground_t (fbmMacro fbmMicro : ℝ → ℝ → ℝ → ℝ → ℝ)
    (c : GroundConfig) (w h x y : ℕ) : ℝ :=
  let u : ℝ := x / w
  let v : ℝ := y / h
  let macro_val := noise_normalize ((ToroidalNoise.mk fbmMacro c.macro_scale).get u v)
  let micro_val := noise_normalize ((ToroidalNoise.mk fbmMicro c.micro_scale).get u v)
  macro_val * (1 - c.micro_weight) + micro_val * c.micro_weight

/-- The ground height field. -/
noncomputable def ground_heights (fbmMacro fbmMicro : ℝ → ℝ → ℝ → ℝ → ℝ)
    (c : GroundConfig) (w h : ℕ) : List ℝ :=
  (List.range h).flatMap fun y =>
    (List.range w).map fun x => ground_t fbmMacro fbmMicro c w h x y

/-- The ground albedo buffer. -/
noncomputable def ground_albedo (fbmMacro fbmMicro : ℝ → ℝ → ℝ → ℝ → ℝ)
    (c : GroundConfig) (w h : ℕ) : List ℕ :=
  (List.range h).flatMap fun y =>
    (List.range w).flatMap fun x =>
      let t := ground_t fbmMacro fbmMicro c w h x y
      [linear_to_srgb (lerp c.color_moist.1 c.color_dry.1 t),
       linear_to_srgb (lerp c.color_moist.2.1 c.color_dry.2.1 t),
       linear_to_srgb (lerp c.color_moist.2.2 c.color_dry.2.2 t),
       255]

/-- The ground ORM buffer. -/
noncomputable def ground_roughness (fbmMacro fbmMicro : ℝ → ℝ → ℝ → ℝ → ℝ)
    (c : GroundConfig) (w h : ℕ) : List ℕ :=
  (List.range h).flatMap fun y =>
    (List.range w).flatMap fun x =>
      let t := ground_t fbmMacro fbmMicro c w h x y
      [255, u8round ((0.80 + (1 - t) * 0.15) * 255), 0, 255]

/-- The successful result of `GroundGenerator::generate`.  The source calls
`height_to_normal` without a `BoundaryMode` argument (the signature in
`src/normal.rs` requires one), so the boundary mode is kept as a parameter
here. -/
noncomputable def ground_map (fbmMacro fbmMicro : ℝ → ℝ → ℝ → ℝ → ℝ)
    (c : GroundConfig) (boundary : BoundaryMode) (width height : ℕ) : TextureMap where
  albedo := ground_albedo fbmMacro fbmMicro c width height
  normal := height_to_normal (ground_heights fbmMacro fbmMicro c width height)
    width height c.normal_strength boundary
  roughness := ground_roughness fbmMacro fbmMicro c width height
  width := width
  height := height

/-- `GroundGenerator::generate` from `src/ground.rs`. -/
noncomputable def ground_generate (fbmMacro fbmMicro : ℝ → ℝ → ℝ → ℝ → ℝ)
    (c : GroundConfig) (boundary : BoundaryMode) (width height : ℕ) :
    Except TextureError TextureMap :=
  match validate_dimensions width height with
  | .error e => .error e
  | .ok _ => .ok (ground_map fbmMacro fbmMicro c boundary width height)

/-! ## Embedding of `src/leaf.rs` -/

/-- Tuning constants of `src/leaf.rs`. -/
def SERRATION_FREQ : ℝ := 14

/-- Envelope decay rate. -/
def ENVELOPE_DECAY : ℝ := 2

/-- Maximum half-width of the leaf envelope. -/
noncomputable def MAX_HALF_WIDTH : ℝ := 0.44

/-- Venule Perlin frequency. -/
def VENULE_FREQ : ℝ := 28

/-- `LeafConfig` from `src/leaf.rs`. -/
structure LeafConfig where
  seed : ℕ
  color_base : ℝ × ℝ × ℝ
  color_edge : ℝ × ℝ × ℝ
  serration_strength : ℝ
  vein_angle : ℝ
  micro_detail : ℝ
  normal_strength : ℝ
  lobe_count : ℝ
  lobe_depth : ℝ
  lobe_sharpness : ℝ
  petiole_length : ℝ
  petiole_width : ℝ
  midrib_width : ℝ
  vein_count : ℝ
  venule_strength : ℝ

/-- `Default for LeafConfig`. -/
noncomputable def LeafConfig.default : LeafConfig where
  seed := 0
  color_base := (0.12, 0.35, 0.08)
  color_edge := (0.35, 0.28, 0.05)
  serration_strength := 0.12
  vein_angle := 2.5
  micro_detail := 0.3
  normal_strength := 3
  lobe_count := 0
  lobe_depth := 0.35
  lobe_sharpness := 1
  petiole_length := 0.12
  petiole_width := 0.022
  midrib_width := 0.12
  vein_count := 6
  venule_strength := 0.50

/-- `LeafSample` from `src/leaf.rs`. -/
structure LeafSample where
  height : ℝ
  color : ℝ × ℝ × ℝ
  roughness : ℝ

/-- `leaf_envelope` from `src/leaf.rs`: half-width of the silhouette at
blade-space `v`; zero outside `(0, 1)`. -/
noncomputable def leaf_envelope (v : ℝ) : ℝ :=
  if v ≤ 0 ∨ 1 ≤ v then 0
  else Real.sin (v * Real.pi) * Real.exp (-v * ENVELOPE_DECAY) * MAX_HALF_WIDTH

/-- `lobe_envelope` from `src/leaf.rs`: periodic, sign-preserving-power lobe
modulation of the base envelope. -/
noncomputable def lobe_envelope (base v : ℝ) (c : LeafConfig) : ℝ :=
  if c.lobe_count ≤ 0 ∨ c.lobe_depth ≤ 0 then base
  else
    let cos_val := Real.cos (v * c.lobe_count * Real.pi)
    let shaped := Real.sign cos_val * |cos_val| ^ (max c.lobe_sharpness 0.1 : ℝ)
    max (base * (1 + shaped * c.lobe_depth)) 0

/-- `LeafSampler::sample` from `src/leaf.rs`, with the three noise objects
(`perlin`, `perlin_venule`, `worley`) abstracted as 2-input functions. -/
noncomputable def leaf_sample (perlin perlinVenule worley : ℝ → ℝ → ℝ)
    (c : LeafConfig) (u v : ℝ) : Option LeafSample :=
  if 0 < c.petiole_length ∧ v < c.petiole_length then
    let dist := |u - 0.5|
    let half_width := c.petiole_width * (0.7 + 0.3 * v / c.petiole_length)
    if half_width ≤ dist then none
    else
      let t := dist / half_width
      some ⟨Real.sqrt (1 - t * t), c.color_base, 0.58⟩
  else
    let v_blade := if 0 < c.petiole_length then
      (v - c.petiole_length) / (1 - c.petiole_length) else v
    let envelope_blade := leaf_envelope v_blade
    let petiole_base := if 0 < c.petiole_length then
      c.petiole_width * Real.exp (-v_blade * 12) else 0
    let envelope := envelope_blade + petiole_base
    if envelope ≤ 0 then none
    else
      let effective_envelope := lobe_envelope envelope v_blade c
      if effective_envelope ≤ 0 then none
      else
        let raw_dist := |u - 0.5|
        let serration := perlin (u * SERRATION_FREQ) (v_blade * SERRATION_FREQ) *
          c.serration_strength * effective_envelope
        if effective_envelope ≤ raw_dist + serration then none
        else
          let edge_frac := clampR (raw_dist / effective_envelope) 0 1
          let dome := 1 - edge_frac * edge_frac
          let midrib_norm := min (raw_dist / (envelope * max c.midrib_width 0.01)) 1
          let midrib := (1 - midrib_norm) ^ (2 : ℕ)
          let vein_freq := c.vein_count * 2
          let secondary :=
            |Real.sin (v_blade * vein_freq - raw_dist * vein_freq * c.vein_angle)| ^ (4 : ℝ)
          let jitter := perlinVenule (u * 4) (v_blade * 4) * 1.8
          let vn1 :=
            |Real.sin ((u - 0.5) * VENULE_FREQ + v_blade * VENULE_FREQ * 0.38 + jitter)| ^ (6 : ℝ)
          let vn2 :=
            |Real.sin ((u - 0.5) * VENULE_FREQ - v_blade * VENULE_FREQ * 0.38 + jitter)| ^ (6 : ℝ)
          let venule := max vn1 vn2
          let micro := clampR (worley u v_blade * 0.5 + 0.5) 0 1
          let height := clampR (dome * 0.15 + midrib * 0.40 + secondary * 0.25 +
            venule * c.venule_strength * 0.15 + micro * c.micro_detail * 0.05) 0 1
          let edge_t := edge_frac
          let blade_r := lerp c.color_base.1 c.color_edge.1 edge_t
          let blade_g := lerp c.color_base.2.1 c.color_edge.2.1 edge_t
          let blade_b := lerp c.color_base.2.2 c.color_edge.2.2 edge_t
          let vein_brightness := clampR (midrib * 0.6 + secondary * 0.4) 0 1 * 0.18
          some ⟨height,
            (min (blade_r + vein_brightness) 1,
             min (blade_g + vein_brightness * 0.75) 1,
             min (blade_b + vein_brightness * 0.25) 1),
            lerp 0.80 0.52 height⟩

/-- The leaf height field: neutral `0.5` outside the silhouette. -/
noncomputable def leaf_heights (perlin perlinVenule worley : ℝ → ℝ → ℝ)
    (c : LeafConfig) (w h : ℕ) : List ℝ :=
  (List.range h).flatMap fun y =>
    (List.range w).map fun x =>
      match leaf_sample perlin perlinVenule worley c (x / w) (y / h) with
      | none => 0.5
      | some s => s.height

/-- The leaf albedo buffer: transparent black outside, opaque sRGB colour inside. -/
noncomputable def leaf_albedo (perlin perlinVenule worley : ℝ → ℝ → ℝ)
    (c : LeafConfig) (w h : ℕ) : List ℕ :=
  (List.range h).flatMap fun y =>
    (List.range w).flatMap fun x =>
      match leaf_sample perlin perlinVenule worley c (x / w) (y / h) with
      | none => [0, 0, 0, 0]
      | some s => [linear_to_srgb s.color.1, linear_to_srgb s.color.2.1,
          linear_to_srgb s.color.2.2, 255]

/-- The leaf ORM buffer. -/
noncomputable def leaf_roughness (perlin perlinVenule worley : ℝ → ℝ → ℝ)
    (c : LeafConfig) (w h : ℕ) : List ℕ :=
  (List.range h).flatMap fun y =>
    (List.range w).flatMap fun x =>
      match leaf_sample perlin perlinVenule worley c (x / w) (y / h) with
      | none => [255, 200, 0, 255]
      | some s => [255, u8round (s.roughness * 255), 0, 255]

/-- The successful result of `LeafGenerator::generate`.  The source calls
`height_to_normal` without a `BoundaryMode` argument and performs no
`dilate_heights` pass, so the boundary mode is kept as a parameter here. -/
noncomputable def leaf_map (perlin perlinVenule worley : ℝ → ℝ → ℝ)
    (c : LeafConfig) (boundary : BoundaryMode) (width height : ℕ) : TextureMap where
  albedo := leaf_albedo perlin perlinVenule worley c width height
  normal := height_to_normal (leaf_heights perlin perlinVenule worley c width height)
    width height c.normal_strength boundary
  roughness := leaf_roughness perlin perlinVenule worley c width height
  width := width
  height := height

/-- `LeafGenerator::generate` from `src/leaf.rs`. -/
noncomputable def leaf_generate (perlin perlinVenule worley : ℝ → ℝ → ℝ)
    (c : LeafConfig) (boundary : BoundaryMode) (width height : ℕ) :
    Except TextureError TextureMap :=
  match validate_dimensions width height with
  | .error e => .error e
  | .ok _ => .ok (leaf_map perlin perlinVenule worley c boundary width height)

/-! ## Embedding of `src/twig.rs` -/

/-- Perlin spatial frequency of the stem wiggle. -/
noncomputable def STEM_CURVE_FREQ : ℝ := 1.8

/-- Y offset in Perlin space for the stem curve. -/
noncomputable def STEM_PERLIN_Y : ℝ := 13.7

/-- Amplitude of the sympodial zigzag relative to `stem_curve`. -/
noncomputable def SYMPODIAL_ZZ_SCALE : ℝ := 1.5

/-- Power used to taper the stem width. -/
noncomputable def STEM_TAPER_POW : ℝ := 0.55

/-- Scale of the terminal leaf relative to lateral leaves. -/
noncomputable def TERMINAL_SCALE : ℝ := 0.72

/-- A truncating `f32 → u8` cast (`as u8` without `.round()`), as in
`(0.78_f32 * 255.0) as u8`. -/
noncomputable def u8trunc (x : ℝ) : ℕ := min ((⌊x⌋).toNat) 255

/-- `TwigConfig` from `src/twig.rs`. -/
structure TwigConfig where
  leaf : LeafConfig
  stem_color : ℝ × ℝ × ℝ
  stem_half_width : ℝ
  leaf_pairs : ℕ
  leaf_angle : ℝ
  leaf_scale : ℝ
  stem_curve : ℝ
  sympodial : Bool

/-- `Default for TwigConfig`. -/
noncomputable def TwigConfig.default : TwigConfig where
  leaf := LeafConfig.default
  stem_color := (0.25, 0.16, 0.07)
  stem_half_width := 0.015
  leaf_pairs := 4
  leaf_angle := Real.pi / 2 - 0.35
  leaf_scale := 0.38
  stem_curve := 0.05
  sympodial := false

/-- `LeafAttachment` from `src/twig.rs`. -/
structure LeafAttachment where
  attach_u : ℝ
  attach_v : ℝ
  angle : ℝ
  scale : ℝ

/-- `terminal_v` from `src/twig.rs`. -/
noncomputable def terminal_v (c : TwigConfig) : ℝ :=
  c.leaf_scale * TERMINAL_SCALE + 0.03

/-- `stem_center_u` from `src/twig.rs`: organic Perlin wiggle plus the optional
sympodial zigzag, clamped into `[0.08, 0.92]`. -/
noncomputable def stem_center_u (pv : ℝ) (c : TwigConfig) (perlin : ℝ → ℝ → ℝ) : ℝ :=
  let organic := perlin (pv * STEM_CURVE_FREQ) STEM_PERLIN_Y * c.stem_curve
  let zigzag := if c.sympodial then
      let lat_start := terminal_v c + 0.05
      let lat_span := 0.88 - lat_start
      let phase := if 0 < lat_span then
          (pv - lat_start) / lat_span * (c.leaf_pairs : ℝ) * Real.pi
        else 0
      Real.sin phase * c.stem_curve * SYMPODIAL_ZZ_SCALE * pv
    else 0
  clampR (0.5 + organic + zigzag) 0.08 0.92

/-- `stem_half_width_at` from `src/twig.rs`. -/
noncomputable def stem_half_width_at (pv half_width : ℝ) : ℝ :=
  half_width * pv ^ STEM_TAPER_POW

/-- `stem_tangent_at` from `src/twig.rs`: numerical tangent of the stem
centreline (`atan2(du_dv, 1.0)` is `arctan du_dv`). -/
noncomputable def stem_tangent_at (pv : ℝ) (c : TwigConfig) (perlin : ℝ → ℝ → ℝ) : ℝ :=
  let delta : ℝ := 0.005
  let p : ℝ × ℝ × ℝ :=
    if pv < delta then
      (stem_center_u pv c perlin, stem_center_u (pv + delta) c perlin, delta)
    else if 1 - delta < pv then
      (stem_center_u (pv - delta) c perlin, stem_center_u pv c perlin, delta)
    else
      (stem_center_u (pv - delta) c perlin, stem_center_u (pv + delta) c perlin, 2 * delta)
  Real.arctan ((p.2.1 - p.1) / p.2.2)

/-- `TwigGenerator::monopodial_attachments`: opposite pairs plus the terminal
leaf. -/
noncomputable def monopodial_attachments (n : ℕ) (c : TwigConfig)
    (perlin : ℝ → ℝ → ℝ) : List LeafAttachment :=
  let term_v := terminal_v c
  let lat_start := term_v + 0.05
  let lat_span := 0.88 - lat_start
  ((List.range n).flatMap fun i =>
    let attach_v := lat_start + ((i : ℝ) / n) * lat_span
    let attach_u := stem_center_u attach_v c perlin
    let tangent := stem_tangent_at attach_v c perlin
    [⟨attach_u, attach_v, tangent + c.leaf_angle, c.leaf_scale⟩,
     ⟨attach_u, attach_v, tangent - c.leaf_angle, c.leaf_scale⟩]) ++
  [⟨stem_center_u term_v c perlin, term_v,
    stem_tangent_at term_v c perlin + Real.pi, c.leaf_scale * TERMINAL_SCALE⟩]

/-- `TwigGenerator::sympodial_attachments`: alternate leaves at the zigzag
extrema plus the terminal leaf. -/
noncomputable def sympodial_attachments (n : ℕ) (c : TwigConfig)
    (perlin : ℝ → ℝ → ℝ) : List LeafAttachment :=
  let term_v := terminal_v c
  let lat_start := term_v + 0.05
  let lat_span := 0.88 - lat_start
  ((List.range n).map fun i =>
    let normalized := (2 * (i : ℝ) + 1) / (2 * n)
    let attach_v := lat_start + normalized * lat_span
    let attach_u := stem_center_u attach_v c perlin
    let tangent := stem_tangent_at attach_v c perlin
    let side : ℝ := if i % 2 = 0 then 1 else -1
    (⟨attach_u, attach_v, tangent + side * c.leaf_angle, c.leaf_scale⟩ :
      LeafAttachment)) ++
  [⟨stem_center_u term_v c perlin, term_v,
    stem_tangent_at term_v c perlin + Real.pi, c.leaf_scale * TERMINAL_SCALE⟩]

/-- `TwigGenerator::leaf_attachments`. -/
noncomputable def leaf_attachments (c : TwigConfig) (perlin : ℝ → ℝ → ℝ) :
    List LeafAttachment :=
  let n := max c.leaf_pairs 1
  if c.sympodial then sympodial_attachments n c perlin
  else monopodial_attachments n c perlin

/-- `pixel_to_leaf_uv` from `src/twig.rs`: invert the attachment's rotation
and scale to obtain leaf-local UV. -/
noncomputable def pixel_to_leaf_uv (pu pv : ℝ) (att : LeafAttachment) : ℝ × ℝ :=
  let dx := pu - att.attach_u
  let dy := pv - att.attach_v
  let cos_a := Real.cos att.angle
  let sin_a := Real.sin att.angle
  let u_raw := dx * cos_a - dy * sin_a
  let v_raw := dx * sin_a + dy * cos_a
  (u_raw / att.scale + 0.5, v_raw / att.scale)

/-- The three per-pixel cases of the twig compositor: stem ridge, first leaf
hit, or transparent background. -/
inductive TwigPixel where
  | stem (t : ℝ) : TwigPixel
  | leafHit (s : LeafSample) : TwigPixel
  | transparent : TwigPixel

/-- The per-pixel branch taken by `TwigGenerator::generate`: stem SDF test
first, then the leaf attachments in order (first non-transparent sample
wins), else transparent. -/
noncomputable def twig_pixel (stemPerlin perlin perlinVenule worley : ℝ → ℝ → ℝ)
    (c : TwigConfig) (w h x y : ℕ) : TwigPixel :=
  let pu : ℝ := x / w
  let pv : ℝ := y / h
  let s_center := stem_center_u pv c stemPerlin
  let s_hw := stem_half_width_at pv c.stem_half_width
  let dist_to_stem := |pu - s_center|
  if 0.000000001 < s_hw ∧ dist_to_stem < s_hw then
    TwigPixel.stem (1 - dist_to_stem / s_hw)
  else
    match (leaf_attachments c stemPerlin).findSome? (fun att =>
      let luv := pixel_to_leaf_uv pu pv att
      if 0 ≤ luv.1 ∧ luv.1 ≤ 1 ∧ 0 ≤ luv.2 ∧ luv.2 ≤ 1 then
        leaf_sample perlin perlinVenule worley c.leaf luv.1 luv.2
      else none) with
    | some s => TwigPixel.leafHit s
    | none => TwigPixel.transparent

/-- The twig height field. -/
noncomputable def twig_heights (stemPerlin perlin perlinVenule worley : ℝ → ℝ → ℝ)
    (c : TwigConfig) (w h : ℕ) : List ℝ :=
  (List.range h).flatMap fun y =>
    (List.range w).map fun x =>
      match twig_pixel stemPerlin perlin perlinVenule worley c w h x y with
      | .stem t => t * 0.6
      | .leafHit s => s.height
      | .transparent => 0.5

/-- The twig albedo buffer: stem colour ramp, leaf colour, or edge-colour RGB
with zero alpha. -/
noncomputable def twig_albedo (stemPerlin perlin perlinVenule worley : ℝ → ℝ → ℝ)
    (c : TwigConfig) (w h : ℕ) : List ℕ :=
  (List.range h).flatMap fun y =>
    (List.range w).flatMap fun x =>
      match twig_pixel stemPerlin perlin perlinVenule worley c w h x y with
      | .stem t =>
        [linear_to_srgb (lerp (c.stem_color.1 * 0.55) c.stem_color.1 t),
         linear_to_srgb (lerp (c.stem_color.2.1 * 0.55) c.stem_color.2.1 t),
         linear_to_srgb (lerp (c.stem_color.2.2 * 0.55) c.stem_color.2.2 t),
         255]
      | .leafHit s => [linear_to_srgb s.color.1, linear_to_srgb s.color.2.1,
          linear_to_srgb s.color.2.2, 255]
      | .transparent => [linear_to_srgb c.leaf.color_edge.1,
          linear_to_srgb c.leaf.color_edge.2.1,
          linear_to_srgb c.leaf.color_edge.2.2, 0]

/-- The twig ORM buffer. -/
noncomputable def twig_roughness (stemPerlin perlin perlinVenule worley : ℝ → ℝ → ℝ)
    (c : TwigConfig) (w h : ℕ) : List ℕ :=
  (List.range h).flatMap fun y =>
    (List.range w).flatMap fun x =>
      match twig_pixel stemPerlin perlin perlinVenule worley c w h x y with
      | .stem _ => [255, u8trunc (0.78 * 255), 0, 255]
      | .leafHit s => [255, u8round (s.roughness * 255), 0, 255]
      | .transparent => [255, 200, 0, 255]

/-- The successful result of `TwigGenerator::generate`.  The source calls
`height_to_normal` without a `BoundaryMode` argument and performs no
`dilate_heights` pass, so the boundary mode is kept as a parameter here. -/
noncomputable def twig_map (stemPerlin perlin perlinVenule worley : ℝ → ℝ → ℝ)
    (c : TwigConfig) (boundary : BoundaryMode) (width height : ℕ) : TextureMap where
  albedo := twig_albedo stemPerlin perlin perlinVenule worley c width height
  normal := height_to_normal
    (twig_heights stemPerlin perlin perlinVenule worley c width height)
    width height c.leaf.normal_strength boundary
  roughness := twig_roughness stemPerlin perlin perlinVenule worley c width height
  width := width
  height := height

/-- `TwigGenerator::generate` from `src/twig.rs`. -/
noncomputable def twig_generate (stemPerlin perlin perlinVenule worley : ℝ → ℝ → ℝ)
    (c : TwigConfig) (boundary : BoundaryMode) (width height : ℕ) :
    Except TextureError TextureMap :=
  match validate_dimensions width height with
  | .error e => .error e
  | .ok _ => .ok (twig_map stemPerlin perlin perlinVenule worley c boundary width height)

/-! ## C1: dimension validation across all five generators -/

theorem validate_dimensions_zero {width height : ℕ} (h : width = 0 ∨ height = 0) :
    validate_dimensions width height =
      Except.error (TextureError.ZeroDimension width height) := by
  simp [validate_dimensions, h]

theorem validate_dimensions_large {width height : ℕ} (h1 : width ≠ 0) (h2 : height ≠ 0)
    (h3 : MAX_DIMENSION < width ∨ MAX_DIMENSION < height) :
    validate_dimensions width height =
      Except.error (TextureError.DimensionTooLarge width height MAX_DIMENSION) := by
  simp [validate_dimensions, h1, h2, h3]

/-- C1: every material generator (Bark, Rock, Ground, Leaf, Twig) returns a
dimension error synchronously: `ZeroDimension` when the width or the height is
zero, `DimensionTooLarge` when either exceeds `MAX_DIMENSION = 4096`.  The
result is determined by the dimensions alone — it holds for every noise
function and configuration, so the check precedes any pixel work — and the
error value carries no `TextureMap`. -/
theorem generators_validate_dimensions
    (nW nV nB nC rid gMa gMi : ℝ → ℝ → ℝ → ℝ → ℝ)
    (pe ve wo st : ℝ → ℝ → ℝ)
    (bc : BarkConfig) (rc : RockConfig) (gc : GroundConfig) (lc : LeafConfig)
    (tc : TwigConfig) (bd : BoundaryMode) (width height : ℕ) :
    ((width = 0 ∨ height = 0) →
      bark_generate nW nV nB nC bc width height =
          Except.error (TextureError.ZeroDimension width height) ∧
        rock_generate rid rc width height =
          Except.error (TextureError.ZeroDimension width height) ∧
        ground_generate gMa gMi gc bd width height =
          Except.error (TextureError.ZeroDimension width height) ∧
        leaf_generate pe ve wo lc bd width height =
          Except.error (TextureError.ZeroDimension width height) ∧
        twig_generate st pe ve wo tc bd width height =
          Except.error (TextureError.ZeroDimension width height)) ∧
    (width ≠ 0 → height ≠ 0 → (MAX_DIMENSION < width ∨ MAX_DIMENSION < height) →
      bark_generate nW nV nB nC bc width height =
          Except.error (TextureError.DimensionTooLarge width height MAX_DIMENSION) ∧
        rock_generate rid rc width height =
          Except.error (TextureError.DimensionTooLarge width height MAX_DIMENSION) ∧
        ground_generate gMa gMi gc bd width height =
          Except.error (TextureError.DimensionTooLarge width height MAX_DIMENSION) ∧
        leaf_generate pe ve wo lc bd width height =
          Except.error (TextureError.DimensionTooLarge width height MAX_DIMENSION) ∧
        twig_generate st pe ve wo tc bd width height =
          Except.error (TextureError.DimensionTooLarge width height MAX_DIMENSION)) := by
  constructor
  · intro h
    have hv := validate_dimensions_zero h
    refine ⟨?_, ?_, ?_, ?_, ?_⟩ <;>
      simp [bark_generate, rock_generate, ground_generate, leaf_generate,
        twig_generate, hv]
  · intro h1 h2 h3
    have hv := validate_dimensions_large h1 h2 h3
    refine ⟨?_, ?_, ?_, ?_, ?_⟩ <;>
      simp [bark_generate, rock_generate, ground_generate, leaf_generate,
        twig_generate, hv]

/-- Witness for C1: a zero width and an over-limit width at concrete inputs. -/
theorem generators_validate_dimensions_witness :
    (bark_generate (fun _ _ _ _ => 0) (fun _ _ _ _ => 0) (fun _ _ _ _ => 0)
        (fun _ _ _ _ => 0) BarkConfig.default 0 7 =
      Except.error (TextureError.ZeroDimension 0 7)) ∧
    (twig_generate (fun _ _ => 0) (fun _ _ => 0) (fun _ _ => 0) (fun _ _ => 0)
        TwigConfig.default BoundaryMode.Clamp 4097 7 =
      Except.error (TextureError.DimensionTooLarge 4097 7 4096)) := by
  have h := generators_validate_dimensions (fun _ _ _ _ => 0) (fun _ _ _ _ => 0)
    (fun _ _ _ _ => 0) (fun _ _ _ _ => 0) (fun _ _ _ _ => 0) (fun _ _ _ _ => 0)
    (fun _ _ _ _ => 0) (fun _ _ => 0) (fun _ _ => 0) (fun _ _ => 0) (fun _ _ => 0)
    BarkConfig.default RockConfig.default GroundConfig.default LeafConfig.default
    TwigConfig.default BoundaryMode.Clamp 0 7
  have h2 := generators_validate_dimensions (fun _ _ _ _ => 0) (fun _ _ _ _ => 0)
    (fun _ _ _ _ => 0) (fun _ _ _ _ => 0) (fun _ _ _ _ => 0) (fun _ _ _ _ => 0)
    (fun _ _ _ _ => 0) (fun _ _ => 0) (fun _ _ => 0) (fun _ _ => 0) (fun _ _ => 0)
    BarkConfig.default RockConfig.default GroundConfig.default LeafConfig.default
    TwigConfig.default BoundaryMode.Clamp 4097 7
  exact ⟨(h.1 (Or.inl rfl)).1,
    ((h2.2 (by norm_num) (by norm_num) (Or.inl (by norm_num [MAX_DIMENSION]))).2.2.2.2)⟩

/-! ## C5: buffer shapes of successful generation -/

theorem flatMap_length_const {α β : Type} (l : List α) (f : α → List β) (k : ℕ)
    (hf : ∀ a ∈ l, (f a).length = k) : (l.flatMap f).length = l.length * k := by
  induction l with
  | nil => simp
  | cons a t ih =>
    simp only [List.flatMap_cons, List.length_append, List.length_cons]
    rw [hf a (by simp), ih (fun b hb => hf b (by simp [hb]))]
    ring

theorem sample_grid_length (tn : ToroidalNoise) (w h : ℕ) :
    (sample_grid tn w h).length = h * w := by
  unfold sample_grid
  rw [flatMap_length_const _ _ w (fun a _ => by simp)]
  simp

theorem height_to_normal_length (heights : List ℝ) (w h : ℕ) (s : ℝ)
    (b : BoundaryMode) (hw : w ≠ 0) (hh : h ≠ 0) :
    (height_to_normal heights w h s b).length = w * h * 4 := by
  unfold height_to_normal
  rw [if_neg (by simp [hw, hh])]
  rw [flatMap_length_const _ _ (w * 4) (fun a _ => by
    rw [flatMap_length_const _ _ 4 (fun x _ => by simp [normal_pixel])]
    simp)]
  simp [Nat.mul_comm, Nat.mul_assoc, Nat.mul_left_comm]

theorem validate_dimensions_ok {w h : ℕ} (hv : validate_dimensions w h = Except.ok ()) :
    w ≠ 0 ∧ h ≠ 0 := by
  unfold validate_dimensions at hv
  split_ifs at hv with h1 h2
  constructor
  · intro hc; exact h1 (Or.inl hc)
  · intro hc; exact h1 (Or.inr hc)

theorem bark_map_lengths (nW nV nB nC : ℝ → ℝ → ℝ → ℝ → ℝ) (c : BarkConfig)
    (w h : ℕ) (hw : w ≠ 0) (hh : h ≠ 0) :
    (bark_map nW nV nB nC c w h).albedo.length = w * h * 4 ∧
      (bark_map nW nV nB nC c w h).normal.length = w * h * 4 ∧
      (bark_map nW nV nB nC c w h).roughness.length = w * h * 4 := by
  refine ⟨?_, height_to_normal_length _ _ _ _ _ hw hh, ?_⟩ <;>
  · show (List.flatMap _ _).length = _
    rw [flatMap_length_const _ _ (w * 4) (fun a _ => by
      rw [flatMap_length_const _ _ 4 (fun x _ => by simp)]
      simp)]
    simp [Nat.mul_comm, Nat.mul_assoc, Nat.mul_left_comm]

theorem rock_map_lengths (rid : ℝ → ℝ → ℝ → ℝ → ℝ) (c : RockConfig)
    (w h : ℕ) (hw : w ≠ 0) (hh : h ≠ 0) :
    (rock_map rid c w h).albedo.length = w * h * 4 ∧
      (rock_map rid c w h).normal.length = w * h * 4 ∧
      (rock_map rid c w h).roughness.length = w * h * 4 := by
  refine ⟨?_, height_to_normal_length _ _ _ _ _ hw hh, ?_⟩ <;>
  · show (List.flatMap _ _).length = _
    rw [flatMap_length_const _ _ 4 (fun a _ => by simp)]
    rw [sample_grid_length]
    ring

theorem ground_map_lengths (gMa gMi : ℝ → ℝ → ℝ → ℝ → ℝ) (c : GroundConfig)
    (bd : BoundaryMode) (w h : ℕ) (hw : w ≠ 0) (hh : h ≠ 0) :
    (ground_map gMa gMi c bd w h).albedo.length = w * h * 4 ∧
      (ground_map gMa gMi c bd w h).normal.length = w * h * 4 ∧
      (ground_map gMa gMi c bd w h).roughness.length = w * h * 4 := by
  refine ⟨?_, height_to_normal_length _ _ _ _ _ hw hh, ?_⟩ <;>
  · show (List.flatMap _ _).length = _
    rw [flatMap_length_const _ _ (w * 4) (fun a _ => by
      rw [flatMap_length_const _ _ 4 (fun x _ => by simp)]
      simp)]
    simp [Nat.mul_comm, Nat.mul_assoc, Nat.mul_left_comm]

theorem leaf_map_lengths (pe ve wo : ℝ → ℝ → ℝ) (c : LeafConfig)
    (bd : BoundaryMode) (w h : ℕ) (hw : w ≠ 0) (hh : h ≠ 0) :
    (leaf_map pe ve wo c bd w h).albedo.length = w * h * 4 ∧
      (leaf_map pe ve wo c bd w h).normal.length = w * h * 4 ∧
      (leaf_map pe ve wo c bd w h).roughness.length = w * h * 4 := by
  refine ⟨?_, height_to_normal_length _ _ _ _ _ hw hh, ?_⟩ <;>
  · show (List.flatMap _ _).length = _
    rw [flatMap_length_const _ _ (w * 4) (fun a _ => by
      rw [flatMap_length_const _ _ 4 (fun x _ => by
        rcases hs : leaf_sample pe ve wo c (x / w) (a / h) with _ | s <;> simp [hs])]
      simp)]
    simp [Nat.mul_comm, Nat.mul_assoc, Nat.mul_left_comm]

theorem twig_map_lengths (st pe ve wo : ℝ → ℝ → ℝ) (c : TwigConfig)
    (bd : BoundaryMode) (w h : ℕ) (hw : w ≠ 0) (hh : h ≠ 0) :
    (twig_map st pe ve wo c bd w h).albedo.length = w * h * 4 ∧
      (twig_map st pe ve wo c bd w h).normal.length = w * h * 4 ∧
      (twig_map st pe ve wo c bd w h).roughness.length = w * h * 4 := by
  refine ⟨?_, height_to_normal_length _ _ _ _ _ hw hh, ?_⟩ <;>
  · show (List.flatMap _ _).length = _
    rw [flatMap_length_const _ _ (w * 4) (fun a _ => by
      rw [flatMap_length_const _ _ 4 (fun x _ => by
        rcases hs : twig_pixel st pe ve wo c w h x a with t | s | _ <;> simp [hs])]
      simp)]
    simp [Nat.mul_comm, Nat.mul_assoc, Nat.mul_left_comm]

/-- C5: for every material type, every configuration and noise functions, and
every `width`, `height` for which `generate` succeeds, each of the three
returned buffers (albedo, normal, roughness/ORM) has length exactly
`width * height * 4`. -/
theorem generate_buffer_lengths
    (nW nV nB nC rid gMa gMi : ℝ → ℝ → ℝ → ℝ → ℝ)
    (pe ve wo st : ℝ → ℝ → ℝ)
    (bc : BarkConfig) (rc : RockConfig) (gc : GroundConfig) (lc : LeafConfig)
    (tc : TwigConfig) (bd : BoundaryMode) (width height : ℕ) :
    (∀ m, bark_generate nW nV nB nC bc width height = Except.ok m →
      m.albedo.length = width * height * 4 ∧ m.normal.length = width * height * 4 ∧
        m.roughness.length = width * height * 4) ∧
    (∀ m, rock_generate rid rc width height = Except.ok m →
      m.albedo.length = width * height * 4 ∧ m.normal.length = width * height * 4 ∧
        m.roughness.length = width * height * 4) ∧
    (∀ m, ground_generate gMa gMi gc bd width height = Except.ok m →
      m.albedo.length = width * height * 4 ∧ m.normal.length = width * height * 4 ∧
        m.roughness.length = width * height * 4) ∧
    (∀ m, leaf_generate pe ve wo lc bd width height = Except.ok m →
      m.albedo.length = width * height * 4 ∧ m.normal.length = width * height * 4 ∧
        m.roughness.length = width * height * 4) ∧
    (∀ m, twig_generate st pe ve wo tc bd width height = Except.ok m →
      m.albedo.length = width * height * 4 ∧ m.normal.length = width * height * 4 ∧
        m.roughness.length = width * height * 4) := by
  rcases hval : validate_dimensions width height with e | u
  · refine ⟨?_, ?_, ?_, ?_, ?_⟩ <;>
      · intro m hm
        simp [bark_generate, rock_generate, ground_generate, leaf_generate,
          twig_generate, hval] at hm
  · obtain ⟨hw, hh⟩ := validate_dimensions_ok (by cases u; exact hval)
    refine ⟨?_, ?_, ?_, ?_, ?_⟩ <;> intro m hm
    · have : m = bark_map nW nV nB nC bc width height := by
        simp [bark_generate, hval] at hm; exact hm.symm
      rw [this]; exact bark_map_lengths nW nV nB nC bc width height hw hh
    · have : m = rock_map rid rc width height := by
        simp [rock_generate, hval] at hm; exact hm.symm
      rw [this]; exact rock_map_lengths rid rc width height hw hh
    · have : m = ground_map gMa gMi gc bd width height := by
        simp [ground_generate, hval] at hm; exact hm.symm
      rw [this]; exact ground_map_lengths gMa gMi gc bd width height hw hh
    · have : m = leaf_map pe ve wo lc bd width height := by
        simp [leaf_generate, hval] at hm; exact hm.symm
      rw [this]; exact leaf_map_lengths pe ve wo lc bd width height hw hh
    · have : m = twig_map st pe ve wo tc bd width height := by
        simp [twig_generate, hval] at hm; exact hm.symm
      rw [this]; exact twig_map_lengths st pe ve wo tc bd width height hw hh

/-- Witness for C5: a successful 2×3 bark generation has buffers of length 24. -/
theorem generate_buffer_lengths_witness :
    bark_generate (fun _ _ _ _ => 0) (fun _ _ _ _ => 0) (fun _ _ _ _ => 0)
        (fun _ _ _ _ => 0) BarkConfig.default 2 3 =
      Except.ok (bark_map (fun _ _ _ _ => 0) (fun _ _ _ _ => 0) (fun _ _ _ _ => 0)
        (fun _ _ _ _ => 0) BarkConfig.default 2 3) ∧
    (bark_map (fun _ _ _ _ => 0) (fun _ _ _ _ => 0) (fun _ _ _ _ => 0)
        (fun _ _ _ _ => 0) BarkConfig.default 2 3).albedo.length = 2 * 3 * 4 := by
  have hgen : bark_generate (fun _ _ _ _ => 0) (fun _ _ _ _ => 0) (fun _ _ _ _ => 0)
      (fun _ _ _ _ => 0) BarkConfig.default 2 3 =
      Except.ok (bark_map (fun _ _ _ _ => 0) (fun _ _ _ _ => 0) (fun _ _ _ _ => 0)
        (fun _ _ _ _ => 0) BarkConfig.default 2 3) := by
    simp [bark_generate, validate_dimensions, MAX_DIMENSION]
  have h := generate_buffer_lengths (fun _ _ _ _ => 0) (fun _ _ _ _ => 0)
    (fun _ _ _ _ => 0) (fun _ _ _ _ => 0) (fun _ _ _ _ => 0) (fun _ _ _ _ => 0)
    (fun _ _ _ _ => 0) (fun _ _ => 0) (fun _ _ => 0) (fun _ _ => 0) (fun _ _ => 0)
    BarkConfig.default RockConfig.default GroundConfig.default LeafConfig.default
    TwigConfig.default BoundaryMode.Clamp 2 3
  exact ⟨hgen, (h.1 _ hgen).1⟩

/-! ## C8: leaf silhouette at the UV corners and along the midrib -/

theorem abs_zero_sub_half : |(0 : ℝ) - 0.5| = 0.5 := by
  rw [zero_sub, abs_neg, abs_of_nonneg (by norm_num : (0 : ℝ) ≤ 0.5)]

theorem abs_one_sub_half : |(1 : ℝ) - 0.5| = 0.5 := by
  rw [show (1 : ℝ) - 0.5 = 0.5 by norm_num, abs_of_nonneg (by norm_num : (0 : ℝ) ≤ 0.5)]

theorem real_sign_abs_le (x : ℝ) : |Real.sign x| ≤ 1 := by
  rcases lt_trichotomy x 0 with h | h | h
  · rw [Real.sign_of_neg h]; norm_num
  · rw [h, Real.sign_zero]; norm_num
  · rw [Real.sign_of_pos h]; norm_num

theorem lobe_shaped_abs_le (cv s : ℝ) (hcv : |cv| ≤ 1) (hs : 0 ≤ s) :
    |Real.sign cv * |cv| ^ (s : ℝ)| ≤ 1 := by
  rw [abs_mul, abs_rpow_of_nonneg (abs_nonneg cv), abs_abs]
  calc |Real.sign cv| * |cv| ^ s ≤ 1 * 1 :=
        mul_le_mul (real_sign_abs_le cv) (Real.rpow_le_one (abs_nonneg cv) hcv hs)
          (Real.rpow_nonneg (abs_nonneg cv) s) (by norm_num)
    _ = 1 := by norm_num

/-- The lobed envelope never exceeds twice the base envelope when the lobe
depth is at most one. -/
theorem lobe_envelope_le_two_mul (env v : ℝ) (c : LeafConfig) (henv : 0 ≤ env)
    (hld : c.lobe_depth ≤ 1) : lobe_envelope env v c ≤ 2 * env := by
  unfold lobe_envelope
  split_ifs with h
  · linarith
  · push_neg at h
    obtain ⟨_, hld0⟩ := h
    apply max_le _ (by linarith)
    have hsh := lobe_shaped_abs_le (Real.cos (v * c.lobe_count * Real.pi))
      (max c.lobe_sharpness 0.1) (abs_cos_le_one _)
      (le_trans (by norm_num) (le_max_right _ _))
    have h1 : Real.sign (Real.cos (v * c.lobe_count * Real.pi)) *
        |Real.cos (v * c.lobe_count * Real.pi)| ^ (max c.lobe_sharpness 0.1 : ℝ) *
          c.lobe_depth ≤ 1 := by
      calc _ ≤ |_ * c.lobe_depth| := le_abs_self _
        _ = |Real.sign (Real.cos (v * c.lobe_count * Real.pi)) *
            |Real.cos (v * c.lobe_count * Real.pi)| ^
              (max c.lobe_sharpness 0.1 : ℝ)| * |c.lobe_depth| := abs_mul _ _
        _ ≤ 1 * 1 := by
            apply mul_le_mul hsh _ (abs_nonneg _) (by norm_num)
            rw [abs_of_pos hld0]; exact hld
        _ = 1 := by norm_num
    nlinarith

/-- The lobed envelope stays positive when the base is positive and the lobe
depth is below one. -/
theorem lobe_envelope_pos (env v : ℝ) (c : LeafConfig) (henv : 0 < env)
    (hld : c.lobe_depth < 1) : 0 < lobe_envelope env v c := by
  unfold lobe_envelope
  split_ifs with h
  · exact henv
  · push_neg at h
    obtain ⟨_, hld0⟩ := h
    have hsh := lobe_shaped_abs_le (Real.cos (v * c.lobe_count * Real.pi))
      (max c.lobe_sharpness 0.1) (abs_cos_le_one _)
      (le_trans (by norm_num) (le_max_right _ _))
    have h1 : -1 ≤ Real.sign (Real.cos (v * c.lobe_count * Real.pi)) *
        |Real.cos (v * c.lobe_count * Real.pi)| ^ (max c.lobe_sharpness 0.1 : ℝ) :=
      neg_le_of_abs_le hsh
    have h2 : Real.sign (Real.cos (v * c.lobe_count * Real.pi)) *
        |Real.cos (v * c.lobe_count * Real.pi)| ^ (max c.lobe_sharpness 0.1 : ℝ) *
          c.lobe_depth ≥ -c.lobe_depth := by nlinarith
    have : 0 < env * (1 + Real.sign (Real.cos (v * c.lobe_count * Real.pi)) *
        |Real.cos (v * c.lobe_count * Real.pi)| ^ (max c.lobe_sharpness 0.1 : ℝ) *
          c.lobe_depth) := by nlinarith
    exact lt_max_of_lt_left this

/-- The analytic envelope is positive strictly inside `(0, 1)`. -/
theorem leaf_envelope_pos (v : ℝ) (h0 : 0 < v) (h1 : v < 1) :
    0 < leaf_envelope v := by
  unfold leaf_envelope
  rw [if_neg (by push_neg; constructor <;> linarith)]
  have hs : 0 < Real.sin (v * Real.pi) := by
    apply Real.sin_pos_of_pos_of_lt_pi (by positivity)
    calc v * Real.pi < 1 * Real.pi := by
          apply mul_lt_mul_of_pos_right h1 Real.pi_pos
      _ = Real.pi := one_mul _
  have he : 0 < Real.exp (-v * ENVELOPE_DECAY) := Real.exp_pos _
  have : (0 : ℝ) < MAX_HALF_WIDTH := by unfold MAX_HALF_WIDTH; norm_num
  positivity

/-- The analytic envelope vanishes at the tip `v = 1`. -/
theorem leaf_envelope_one : leaf_envelope 1 = 0 := by
  unfold leaf_envelope
  rw [if_pos (Or.inr le_rfl)]

/-- The analytic envelope vanishes at the base `v = 0`. -/
theorem leaf_envelope_zero : leaf_envelope 0 = 0 := by
  unfold leaf_envelope
  rw [if_pos (Or.inl le_rfl)]

theorem exp_neg_twelve_le : Real.exp (-12 : ℝ) ≤ 1 / 13 := by
  rw [Real.exp_neg, one_div]
  have h13 : (13 : ℝ) ≤ Real.exp 12 := by
    calc (13 : ℝ) = 12 + 1 := by norm_num
      _ ≤ Real.exp 12 := Real.add_one_le_exp 12
  exact inv_anti₀ (by norm_num) h13

/-- At `v = 0` with `0.7·petiole_width ≤ 0.5`, a corner column (`|u-0.5| = 0.5`)
is outside the silhouette. -/
theorem leaf_sample_corner_base (pe ve wo : ℝ → ℝ → ℝ) (c : LeafConfig) (u : ℝ)
    (hu : |u - 0.5| = 0.5) (hpw : 0.7 * c.petiole_width ≤ 0.5) :
    leaf_sample pe ve wo c u 0 = none := by
  by_cases hpl : 0 < c.petiole_length
  · simp only [leaf_sample, hpl, and_self, if_true, hu]
    have hc : c.petiole_width * (0.7 + 0.3 * 0 / c.petiole_length) ≤ 0.5 := by
      rw [mul_zero, zero_div, add_zero]
      linarith
    rw [if_pos hc]
  · simp only [leaf_sample, hpl, false_and, if_false, if_neg hpl, leaf_envelope_zero,
      add_zero]
    rw [if_pos le_rfl]

/-- At `v = 1`, a corner column (`|u-0.5| = 0.5`) is outside the silhouette
whenever the petiole parameters, serration strength and lobe depth are in
their documented ranges and the serration noise is bounded by one. -/
theorem leaf_sample_corner_tip (pe ve wo : ℝ → ℝ → ℝ) (c : LeafConfig) (u : ℝ)
    (hu : |u - 0.5| = 0.5) (hpl1 : c.petiole_length < 1) (hpw0 : 0 ≤ c.petiole_width)
    (hpw : 0.7 * c.petiole_width ≤ 0.5) (hss0 : 0 ≤ c.serration_strength)
    (hss1 : c.serration_strength ≤ 1) (hld : c.lobe_depth ≤ 1)
    (hper : ∀ a b, |pe a b| ≤ 1) :
    leaf_sample pe ve wo c u 1 = none := by
  have houter : ¬(0 < c.petiole_length ∧ (1 : ℝ) < c.petiole_length) := by
    rintro ⟨_, h2⟩; linarith
  by_cases hpl : 0 < c.petiole_length
  · have hdiv : ((1 : ℝ) - c.petiole_length) / (1 - c.petiole_length) = 1 :=
      div_self (sub_ne_zero.mpr (ne_of_gt (by linarith)))
    simp only [leaf_sample, if_neg houter, if_pos hpl, hdiv, leaf_envelope_one, zero_add]
    have hexp : (-(1 : ℝ)) * 12 = -12 := by norm_num
    rw [hexp]
    by_cases henv : c.petiole_width * Real.exp (-12 : ℝ) ≤ 0
    · rw [if_pos henv]
    · rw [if_neg henv]
      push_neg at henv
      by_cases heff : lobe_envelope (c.petiole_width * Real.exp (-12 : ℝ)) 1 c ≤ 0
      · rw [if_pos heff]
      · rw [if_neg heff]
        push_neg at heff
        rw [hu, if_pos]
        have henvle : c.petiole_width * Real.exp (-12 : ℝ) ≤ 5 / 7 * (1 / 13) := by
          have h1 : c.petiole_width ≤ 5 / 7 := by linarith
          have h2 := exp_neg_twelve_le
          have h3 := Real.exp_pos (-12 : ℝ)
          nlinarith
        have heffle : lobe_envelope (c.petiole_width * Real.exp (-12 : ℝ)) 1 c ≤
            2 * (5 / 7 * (1 / 13)) := by
          calc lobe_envelope (c.petiole_width * Real.exp (-12 : ℝ)) 1 c ≤
              2 * (c.petiole_width * Real.exp (-12 : ℝ)) :=
                lobe_envelope_le_two_mul _ _ _ (by positivity) hld
            _ ≤ 2 * (5 / 7 * (1 / 13)) := by linarith
        have hserr : pe (u * SERRATION_FREQ) (1 * SERRATION_FREQ) *
            c.serration_strength *
              lobe_envelope (c.petiole_width * Real.exp (-12 : ℝ)) 1 c ≥
            -(c.serration_strength *
              lobe_envelope (c.petiole_width * Real.exp (-12 : ℝ)) 1 c) := by
          have hpe := hper (u * SERRATION_FREQ) (1 * SERRATION_FREQ)
          have hpelo := neg_le_of_abs_le hpe
          nlinarith [mul_nonneg
            (show (0 : ℝ) ≤ pe (u * SERRATION_FREQ) (1 * SERRATION_FREQ) + 1 by linarith)
            (mul_nonneg hss0 heff.le)]
        nlinarith [mul_nonneg (show (0 : ℝ) ≤ 1 - c.serration_strength by linarith)
          heff.le]
  · simp only [leaf_sample, if_neg houter, if_neg hpl, leaf_envelope_one, zero_add]
    rw [if_pos le_rfl]

/-- The analytic envelope is never negative. -/
theorem leaf_envelope_nonneg (v : ℝ) : 0 ≤ leaf_envelope v := by
  unfold leaf_envelope
  split_ifs with h
  · exact le_rfl
  · push_neg at h
    obtain ⟨h0, h1⟩ := h
    have hs : 0 ≤ Real.sin (v * Real.pi) := by
      apply le_of_lt
      apply Real.sin_pos_of_pos_of_lt_pi (by positivity)
      calc v * Real.pi < 1 * Real.pi := mul_lt_mul_of_pos_right h1 Real.pi_pos
        _ = Real.pi := one_mul _
    have : (0 : ℝ) ≤ MAX_HALF_WIDTH := by unfold MAX_HALF_WIDTH; norm_num
    positivity

/-- On the midrib (`u = 0.5`) with zero serration strength, every `v` strictly
between the base and the tip yields an inside sample. -/
theorem leaf_sample_midrib (pe ve wo : ℝ → ℝ → ℝ) (c : LeafConfig) (v : ℝ)
    (hv0 : 0 < v) (hv1 : v < 1) (hpl1 : c.petiole_length < 1)
    (hpwpos : 0 < c.petiole_length → 0 < c.petiole_width)
    (hld : c.lobe_depth < 1) (hss : c.serration_strength = 0) :
    (leaf_sample pe ve wo c 0.5 v).isSome = true := by
  have habs : |(0.5 : ℝ) - 0.5| = 0 := by rw [sub_self, abs_zero]
  by_cases hA : 0 < c.petiole_length ∧ v < c.petiole_length
  · simp only [leaf_sample, if_pos hA, habs]
    have hhw : 0 < c.petiole_width * (0.7 + 0.3 * v / c.petiole_length) := by
      have hpw := hpwpos hA.1
      have : 0 < 0.3 * v / c.petiole_length := by
        apply div_pos (by linarith) hA.1
      positivity
    rw [if_neg (not_le.mpr hhw)]
    rfl
  · simp only [leaf_sample, if_neg hA]
    by_cases hpl : 0 < c.petiole_length
    · have hvpl : c.petiole_length ≤ v := by
        by_contra hc
        exact hA ⟨hpl, by linarith⟩
      simp only [if_pos hpl]
      have h1pl : (0 : ℝ) < 1 - c.petiole_length := by linarith
      have hvb0 : 0 ≤ (v - c.petiole_length) / (1 - c.petiole_length) :=
        div_nonneg (by linarith) h1pl.le
      have henv : 0 < leaf_envelope ((v - c.petiole_length) / (1 - c.petiole_length)) +
          c.petiole_width *
            Real.exp (-((v - c.petiole_length) / (1 - c.petiole_length)) * 12) := by
        have h1 := leaf_envelope_nonneg ((v - c.petiole_length) / (1 - c.petiole_length))
        have h2 : 0 < c.petiole_width *
            Real.exp (-((v - c.petiole_length) / (1 - c.petiole_length)) * 12) := by
          have := hpwpos hpl
          positivity
        linarith
      rw [if_neg (not_le.mpr henv)]
      have heff := lobe_envelope_pos _
        ((v - c.petiole_length) / (1 - c.petiole_length)) c henv hld
      rw [if_neg (not_le.mpr heff), habs, hss]
      rw [if_neg (by rw [mul_zero, zero_mul, zero_add]; exact not_le.mpr heff)]
      rfl
    · simp only [if_neg hpl]
      have henv : 0 < leaf_envelope v + 0 := by
        rw [add_zero]; exact leaf_envelope_pos v hv0 hv1
      rw [if_neg (not_le.mpr henv)]
      have heff := lobe_envelope_pos _ v c henv hld
      rw [if_neg (not_le.mpr heff), habs, hss]
      rw [if_neg (by rw [mul_zero, zero_mul, zero_add]; exact not_le.mpr heff)]
      rfl

/-- The default leaf configuration with a pathologically wide petiole. -/
noncomputable def leafWidePetioleConfig : LeafConfig :=
  { LeafConfig.default with petiole_width := 1 }

/-- C8 counterexample: the claim quantifies over every `LeafConfig`, but with
`petiole_width = 1` (all other fields at their defaults) the UV corner `(0,0)`
falls inside the petiole (`|0-0.5| = 0.5 < 0.7·1`), so the sampler returns an
inside sample there — for any noise functions, here instantiated with zeros. -/
theorem leaf_corner_inside_counterexample :
    leaf_sample (fun _ _ => 0) (fun _ _ => 0) (fun _ _ => 0)
      leafWidePetioleConfig 0 0 ≠ none := by
  have hpl : (0 : ℝ) < leafWidePetioleConfig.petiole_length := by
    show (0 : ℝ) < (0.12 : ℝ)
    norm_num
  simp only [leaf_sample, hpl, and_self, if_true, abs_zero_sub_half]
  rw [if_neg]
  · simp
  · show ¬(leafWidePetioleConfig.petiole_width *
      (0.7 + 0.3 * 0 / leafWidePetioleConfig.petiole_length) ≤ 0.5)
    rw [mul_zero, zero_div, add_zero]
    show ¬((1 : ℝ) * 0.7 ≤ 0.5)
    norm_num

/-- C8 (amended): for every `LeafConfig` whose parameters lie in their
documented ranges — `petiole_length < 1`, `0 ≤ petiole_width` with
`0.7·petiole_width ≤ 0.5` (and positive whenever a petiole exists),
`serration_strength ∈ [0,1]`, `lobe_depth < 1` — and every serration noise
bounded by one, the sampler returns `none` at the four UV corners, and when
`serration_strength` is zero it returns an inside sample at `u = 0.5` for
every `v` strictly between the base and tip margins. -/
theorem leaf_silhouette_corners_and_midrib (pe ve wo : ℝ → ℝ → ℝ) (c : LeafConfig)
    (hpl1 : c.petiole_length < 1) (hpw0 : 0 ≤ c.petiole_width)
    (hpw : 0.7 * c.petiole_width ≤ 0.5)
    (hpwpos : 0 < c.petiole_length → 0 < c.petiole_width)
    (hss0 : 0 ≤ c.serration_strength) (hss1 : c.serration_strength ≤ 1)
    (hld : c.lobe_depth < 1) (hper : ∀ a b, |pe a b| ≤ 1) :
    leaf_sample pe ve wo c 0 0 = none ∧
      leaf_sample pe ve wo c 1 0 = none ∧
      leaf_sample pe ve wo c 0 1 = none ∧
      leaf_sample pe ve wo c 1 1 = none ∧
      (c.serration_strength = 0 → ∀ v : ℝ, 0 < v → v < 1 →
        (leaf_sample pe ve wo c 0.5 v).isSome = true) :=
  ⟨leaf_sample_corner_base pe ve wo c 0 abs_zero_sub_half hpw,
   leaf_sample_corner_base pe ve wo c 1 abs_one_sub_half hpw,
   leaf_sample_corner_tip pe ve wo c 0 abs_zero_sub_half hpl1 hpw0 hpw hss0 hss1
     hld.le hper,
   leaf_sample_corner_tip pe ve wo c 1 abs_one_sub_half hpl1 hpw0 hpw hss0 hss1
     hld.le hper,
   fun hss v hv0 hv1 =>
     leaf_sample_midrib pe ve wo c v hv0 hv1 hpl1 hpwpos hld hss⟩

/-- The default leaf configuration with serration disabled, as in the source's
`midrib_always_inside` test. -/
noncomputable def leafNoSerrationConfig : LeafConfig :=
  { LeafConfig.default with serration_strength := 0 }

/-- Witness for C8: the amended theorem applied to the default configuration
with zero serration and zero noise, at the four corners and `v = 1/2`. -/
theorem leaf_silhouette_corners_and_midrib_witness :
    leaf_sample (fun _ _ => 0) (fun _ _ => 0) (fun _ _ => 0)
        leafNoSerrationConfig 0 0 = none ∧
      (leaf_sample (fun _ _ => 0) (fun _ _ => 0) (fun _ _ => 0)
        leafNoSerrationConfig 0.5 (1/2)).isSome = true := by
  have h := leaf_silhouette_corners_and_midrib (fun _ _ => 0) (fun _ _ => 0)
    (fun _ _ => 0) leafNoSerrationConfig
    (by show (0.12 : ℝ) < 1; norm_num)
    (by show (0 : ℝ) ≤ 0.022; norm_num)
    (by show (0.7 : ℝ) * 0.022 ≤ 0.5; norm_num)
    (fun _ => by show (0 : ℝ) < 0.022; norm_num)
    (by show (0 : ℝ) ≤ 0; norm_num)
    (by show (0 : ℝ) ≤ 1; norm_num)
    (by show (0.35 : ℝ) < 1; norm_num)
    (fun a b => by rw [abs_zero]; norm_num)
  exact ⟨h.1, h.2.2.2.2 rfl (1/2) (by norm_num) (by norm_num)⟩

/-! ## Embedding of the cancellation protocol of `src/async_gen.rs`

The job closure submitted by `spawn_task` first loads the atomic cancellation
flag: `if !flag.load(..) { tx.send(f()).ok(); }`.  `Drop for PendingTexture`
stores `true` into the flag.  `poll_texture_tasks` performs one non-blocking
`try_recv` per pending request. -/

/-- `Drop for PendingTexture`: dropping the handle stores `true` into the
cancellation flag, whatever its previous value. -/
def pending_texture_drop (_cancelled : Bool) : Bool := true

/-- The job closure of `spawn_task`, as a function of the flag value it
observes when it starts: the value sent into the single-slot channel, or
`none` when the flag was already set and the closure exits without computing
anything. -/
def task_body (cancelled : Bool) (f : Unit → Except TextureError TextureMap) :
    Option (Except TextureError TextureMap) :=
  if cancelled = false then some (f ()) else none

/-- The three outcomes of `mpsc::Receiver::try_recv` on the single-slot
channel. -/
inductive TryRecvResult where
  | value (r : Except TextureError TextureMap) : TryRecvResult
  | empty : TryRecvResult
  | disconnected : TryRecvResult

/-- `try_recv` on the request's channel: a sent value is received; otherwise
the result is `disconnected` once the worker has finished (sender dropped
without sending) and `empty` while it has not. -/
def try_recv (finished : Bool) (slot : Option (Except TextureError TextureMap)) :
    TryRecvResult :=
  match slot with
  | some r => TryRecvResult.value r
  | none => if finished then TryRecvResult.disconnected else TryRecvResult.empty

/-- Whether one `poll_texture_tasks` step delivers a generated texture for the
request (the `Ok(Ok(map))` arm that inserts `TextureReady`). -/
def poll_delivers (res : TryRecvResult) : Bool :=
  match res with
  | TryRecvResult.value (Except.ok _) => true
  | _ => false

/-- C9: when the request handle is dropped before the worker job starts, the
job observes the cancellation flag set, exits without sending anything, and no
poll — whether the worker has finished or not — ever delivers a value for the
request. -/
theorem cancelled_before_start_never_delivers
    (prev : Bool) (f : Unit → Except TextureError TextureMap) :
    task_body (pending_texture_drop prev) f = none ∧
      ∀ finished : Bool,
        poll_delivers (try_recv finished (task_body (pending_texture_drop prev) f)) =
          false := by
  constructor
  · rfl
  · intro finished
    cases finished <;> rfl

/-! ## C6: the sRGB byte round trip of the two lookup tables is the identity

`linear_to_srgb (srgb_to_linear c) = c` for every byte `c`.  The two transfer
curves are exact inverses and the 4096-bin quantisation error stays below half
an output count, so the exact-real round trip is the identity.  The rational
brackets below pin down each `rpow` value tightly enough to determine both
roundings. -/

theorem rpow_natdiv_eq {x : ℝ} (hx : 0 ≤ x) (m n : ℕ) (hn : 0 < n) :
    x ^ ((m : ℝ) / n) = (x ^ m) ^ ((1 : ℝ) / n) := by
  rw [← Real.rpow_natCast x m, ← Real.rpow_mul hx]
  congr 1
  field_simp

theorem le_rpow_of_pow_le {a x : ℝ} {m n : ℕ} (hn : 0 < n) (ha : 0 ≤ a)
    (hx : 0 ≤ x) (h : a ^ n ≤ x ^ m) : a ≤ x ^ ((m : ℝ) / n) := by
  rw [rpow_natdiv_eq hx m n hn]
  calc a = (a ^ n) ^ ((1 : ℝ) / n) := by
        rw [← Real.rpow_natCast a n, ← Real.rpow_mul ha]
        rw [show (n : ℝ) * (1 / n) = 1 by field_simp, Real.rpow_one]
    _ ≤ (x ^ m) ^ ((1 : ℝ) / n) :=
        Real.rpow_le_rpow (pow_nonneg ha n) h (by positivity)

theorem rpow_le_of_pow_le {a x : ℝ} {m n : ℕ} (hn : 0 < n) (ha : 0 ≤ a)
    (hx : 0 ≤ x) (h : x ^ m ≤ a ^ n) : x ^ ((m : ℝ) / n) ≤ a := by
  rw [rpow_natdiv_eq hx m n hn]
  calc (x ^ m) ^ ((1 : ℝ) / n) ≤ (a ^ n) ^ ((1 : ℝ) / n) :=
        Real.rpow_le_rpow (pow_nonneg hx m) h (by positivity)
    _ = a := by
        rw [← Real.rpow_natCast a n, ← Real.rpow_mul ha]
        rw [show (n : ℝ) * (1 / n) = 1 by field_simp, Real.rpow_one]

/-- Round-trip master lemma, power-branch decode (`11 ≤ c`): with rational
brackets `[lo1, hi1]` on the decoded linear value's 12/5-power and
`[lo2, hi2]` on the bin's 5/12-power tight enough to determine the two
roundings, the byte `c` survives the decode/quantise/encode round trip. -/
theorem srgb_roundtrip_pow (c i : ℕ) (lo1 hi1 lo2 hi2 : ℝ)
    (hc1 : 11 ≤ c) (hc2 : c ≤ 255) (hi13 : 13 ≤ i)
    (hlo1 : 0 ≤ lo1) (hlo2 : 0 ≤ lo2) (hhi1 : 0 ≤ hi1) (hhi2 : 0 ≤ hi2)
    (hdlo : lo1 ^ (5 : ℕ) ≤ (((c : ℝ) / 255 + 0.055) / 1.055) ^ (12 : ℕ))
    (hdhi : (((c : ℝ) / 255 + 0.055) / 1.055) ^ (12 : ℕ) ≤ hi1 ^ (5 : ℕ))
    (hrlo : (i : ℝ) ≤ 4095 * lo1 + 1 / 2)
    (hrhi : 4095 * hi1 + 1 / 2 < (i : ℝ) + 1)
    (helo : lo2 ^ (12 : ℕ) ≤ ((i : ℝ) / 4095) ^ (5 : ℕ))
    (hehi : ((i : ℝ) / 4095) ^ (5 : ℕ) ≤ hi2 ^ (12 : ℕ))
    (holo : (c : ℝ) ≤ (1.055 * lo2 - 0.055) * 255 + 1 / 2)
    (hohi : (1.055 * hi2 - 0.055) * 255 + 1 / 2 < (c : ℝ) + 1) :
    linear_to_srgb (srgb_to_linear c) = c := by
  have hc11 : (11 : ℝ) ≤ (c : ℝ) := by exact_mod_cast hc1
  have hc255 : (c : ℝ) ≤ 255 := by exact_mod_cast hc2
  have hx0 : (0 : ℝ) ≤ ((c : ℝ) / 255 + 0.055) / 1.055 := by positivity
  have hx1 : ((c : ℝ) / 255 + 0.055) / 1.055 ≤ 1 := by
    rw [div_le_one (by norm_num)]
    have : (c : ℝ) / 255 ≤ 1 := by
      rw [div_le_one (by norm_num)]; linarith
    linarith
  have hdec : srgb_to_linear c = (((c : ℝ) / 255 + 0.055) / 1.055) ^ (2.4 : ℝ) := by
    unfold srgb_to_linear
    rw [if_neg]
    push_neg
    rw [lt_div_iff₀ (by norm_num : (0 : ℝ) < 255)]
    linarith
  set x : ℝ := ((c : ℝ) / 255 + 0.055) / 1.055 with hxdef
  have h245 : (2.4 : ℝ) = ((12 : ℕ) : ℝ) / ((5 : ℕ) : ℕ) := by norm_num
  have hdec_lo : lo1 ≤ x ^ (2.4 : ℝ) := by
    rw [h245]; exact le_rpow_of_pow_le (by norm_num) hlo1 hx0 hdlo
  have hdec_hi : x ^ (2.4 : ℝ) ≤ hi1 := by
    rw [h245]
    exact rpow_le_of_pow_le (by norm_num) hhi1 hx0 hdhi
  have hdec0 : 0 ≤ x ^ (2.4 : ℝ) := Real.rpow_nonneg hx0 _
  have hdec1 : x ^ (2.4 : ℝ) ≤ 1 := Real.rpow_le_one hx0 hx1 (by norm_num)
  have hclamp : clampR (x ^ (2.4 : ℝ)) 0 1 = x ^ (2.4 : ℝ) := by
    unfold clampR
    rw [max_eq_left hdec0, min_eq_left hdec1]
  have hround : round (clampR (x ^ (2.4 : ℝ)) 0 1 * 4095) = (i : ℤ) := by
    rw [hclamp, round_eq]
    apply Int.floor_eq_iff.mpr
    constructor
    · push_cast
      linarith [hrlo, hdec_lo]
    · push_cast
      linarith [hrhi, hdec_hi]
  have hbin : ¬((i : ℝ) / 4095 ≤ 0.0031308) := by
    push_neg
    rw [lt_div_iff₀ (by norm_num : (0 : ℝ) < 4095)]
    have : (13 : ℝ) ≤ (i : ℝ) := by exact_mod_cast hi13
    linarith
  have h512 : ((1 : ℝ) / 2.4) = ((5 : ℕ) : ℝ) / ((12 : ℕ) : ℕ) := by norm_num
  have hb0 : (0 : ℝ) ≤ (i : ℝ) / 4095 := by positivity
  have henc_lo : lo2 ≤ ((i : ℝ) / 4095) ^ ((1 : ℝ) / 2.4) := by
    rw [h512]; exact le_rpow_of_pow_le (by norm_num) hlo2 hb0 helo
  have henc_hi : ((i : ℝ) / 4095) ^ ((1 : ℝ) / 2.4) ≤ hi2 := by
    rw [h512]
    exact rpow_le_of_pow_le (by norm_num) hhi2 hb0 hehi
  have hout : round ((1.055 * ((i : ℝ) / 4095) ^ ((1 : ℝ) / 2.4) - 0.055) * 255) =
      (c : ℤ) := by
    rw [round_eq]
    apply Int.floor_eq_iff.mpr
    constructor
    · push_cast
      linarith [holo, henc_lo]
    · push_cast
      linarith [hohi, henc_hi]
  show linear_to_srgb (srgb_to_linear c) = c
  rw [hdec]
  unfold linear_to_srgb
  rw [hround]
  simp only [Int.toNat_natCast]
  rw [if_neg hbin]
  unfold u8round
  rw [hout]
  simp only [Int.toNat_natCast]
  exact min_eq_left hc2

set_option maxHeartbeats 1600000 in
/-- Natural-number form of the power-branch master lemma: the brackets are
`a1/10^10` and `a2/10^7`, and every side condition is an integer inequality
checkable by `decide`. -/
theorem srgb_roundtrip_pow_nat (c i a1 a2 : ℕ)
    (hc1 : 11 ≤ c) (hc2 : c ≤ 255) (hi13 : 13 ≤ i)
    (hd1 : a1 ^ 5 * 10761 ^ 12 ≤ (40 * c + 561) ^ 12 * 10 ^ 50)
    (hd2 : (40 * c + 561) ^ 12 * 10 ^ 50 ≤ (a1 + 2) ^ 5 * 10761 ^ 12)
    (hr1 : 2 * i * 10 ^ 10 ≤ 8190 * a1 + 10 ^ 10)
    (hr2 : 8190 * (a1 + 2) + 10 ^ 10 < 2 * (i + 1) * 10 ^ 10)
    (he1 : a2 ^ 12 * 4095 ^ 5 ≤ i ^ 5 * 10 ^ 84)
    (he2 : i ^ 5 * 10 ^ 84 ≤ (a2 + 2) ^ 12 * 4095 ^ 5)
    (ho1 : 4 * 10 ^ 9 * c + 561 * 10 ^ 8 ≤ 107610 * a2 + 2 * 10 ^ 9)
    (ho2 : 107610 * (a2 + 2) + 2 * 10 ^ 9 < 4 * 10 ^ 9 * (c + 1) + 561 * 10 ^ 8) :
    linear_to_srgb (srgb_to_linear c) = c := by
  have hx : ((c : ℝ) / 255 + 0.055) / 1.055 = ((40 * c + 561 : ℕ) : ℝ) / 10761 := by
    push_cast
    field_simp
    ring
  have hpow50 : ((10 : ℝ) ^ 10) ^ 5 = 10 ^ 50 := by norm_num
  have hpow84 : ((10 : ℝ) ^ 7) ^ 12 = 10 ^ 84 := by norm_num
  apply srgb_roundtrip_pow c i ((a1 : ℝ) / 10 ^ 10) (((a1 : ℕ) + 2 : ℝ) / 10 ^ 10)
    ((a2 : ℝ) / 10 ^ 7) (((a2 : ℕ) + 2 : ℝ) / 10 ^ 7) hc1 hc2 hi13
    (by positivity) (by positivity) (by positivity) (by positivity)
  · rw [hx, div_pow, div_pow, hpow50]
    rw [div_le_div_iff₀ (by positivity) (by positivity)]
    exact_mod_cast hd1
  · rw [hx, div_pow, div_pow, hpow50]
    rw [div_le_div_iff₀ (by positivity) (by positivity)]
    exact_mod_cast hd2
  · rw [show (4095 : ℝ) * ((a1 : ℝ) / 10 ^ 10) + 1 / 2 =
        (8190 * (a1 : ℝ) + 10 ^ 10) / (2 * 10 ^ 10) by field_simp; ring]
    rw [le_div_iff₀ (by positivity)]
    have : ((2 * i * 10 ^ 10 : ℕ) : ℝ) ≤ ((8190 * a1 + 10 ^ 10 : ℕ) : ℝ) :=
      Nat.cast_le.mpr hr1
    push_cast at this
    linarith
  · rw [show (4095 : ℝ) * (((a1 : ℕ) + 2 : ℝ) / 10 ^ 10) + 1 / 2 =
        (8190 * ((a1 : ℝ) + 2) + 10 ^ 10) / (2 * 10 ^ 10) by field_simp; ring]
    rw [div_lt_iff₀ (by positivity)]
    have : ((8190 * (a1 + 2) + 10 ^ 10 : ℕ) : ℝ) < ((2 * (i + 1) * 10 ^ 10 : ℕ) : ℝ) :=
      Nat.cast_lt.mpr hr2
    push_cast at this
    linarith
  · rw [div_pow, div_pow, hpow84]
    rw [div_le_div_iff₀ (by positivity) (by positivity)]
    exact_mod_cast he1
  · rw [div_pow, div_pow, hpow84]
    rw [div_le_div_iff₀ (by positivity) (by positivity)]
    exact_mod_cast he2
  · rw [show (1.055 * ((a2 : ℝ) / 10 ^ 7) - 0.055) * 255 + 1 / 2 =
        (107610 * (a2 : ℝ) + 2 * 10 ^ 9 - 561 * 10 ^ 8) / (4 * 10 ^ 9) by
          field_simp; ring]
    rw [le_div_iff₀ (by positivity)]
    have : ((4 * 10 ^ 9 * c + 561 * 10 ^ 8 : ℕ) : ℝ) ≤
        ((107610 * a2 + 2 * 10 ^ 9 : ℕ) : ℝ) := Nat.cast_le.mpr ho1
    push_cast at this
    linarith
  · rw [show (1.055 * (((a2 : ℕ) + 2 : ℝ) / 10 ^ 7) - 0.055) * 255 + 1 / 2 =
        (107610 * ((a2 : ℝ) + 2) + 2 * 10 ^ 9 - 561 * 10 ^ 8) / (4 * 10 ^ 9) by
          field_simp; ring]
    rw [div_lt_iff₀ (by positivity)]
    have : ((107610 * (a2 + 2) + 2 * 10 ^ 9 : ℕ) : ℝ) <
        ((4 * 10 ^ 9 * (c + 1) + 561 * 10 ^ 8 : ℕ) : ℝ) := Nat.cast_lt.mpr ho2
    push_cast at this
    linarith

/-- Round-trip master lemma, linear-branch decode (`c ≤ 10`): all quantities
are rational, and the two roundings are determined by the four bounds. -/
theorem srgb_roundtrip_lin (c i : ℕ) (hc10 : c ≤ 10) (hi12 : i ≤ 12)
    (h1 : (i : ℝ) ≤ (c : ℝ) / 255 / 12.92 * 4095 + 1 / 2)
    (h2 : (c : ℝ) / 255 / 12.92 * 4095 + 1 / 2 < (i : ℝ) + 1)
    (h3 : (c : ℝ) ≤ (i : ℝ) / 4095 * 12.92 * 255 + 1 / 2)
    (h4 : (i : ℝ) / 4095 * 12.92 * 255 + 1 / 2 < (c : ℝ) + 1) :
    linear_to_srgb (srgb_to_linear c) = c := by
  have hc10' : (c : ℝ) ≤ 10 := by exact_mod_cast hc10
  have hc0 : (0 : ℝ) ≤ (c : ℝ) := Nat.cast_nonneg c
  have hdec : srgb_to_linear c = (c : ℝ) / 255 / 12.92 := by
    unfold srgb_to_linear
    rw [if_pos]
    rw [div_le_iff₀ (by norm_num : (0 : ℝ) < 255)]
    linarith
  have hd0 : (0 : ℝ) ≤ (c : ℝ) / 255 / 12.92 := by positivity
  have hd1 : (c : ℝ) / 255 / 12.92 ≤ 1 := by
    rw [div_le_iff₀ (by norm_num : (0 : ℝ) < 12.92),
      div_le_iff₀ (by norm_num : (0 : ℝ) < 255)]
    linarith
  have hclamp : clampR ((c : ℝ) / 255 / 12.92) 0 1 = (c : ℝ) / 255 / 12.92 := by
    unfold clampR
    rw [max_eq_left hd0, min_eq_left hd1]
  have hround : round (clampR ((c : ℝ) / 255 / 12.92) 0 1 * 4095) = (i : ℤ) := by
    rw [hclamp, round_eq]
    apply Int.floor_eq_iff.mpr
    constructor
    · push_cast; linarith
    · push_cast; linarith
  have hbin : (i : ℝ) / 4095 ≤ 0.0031308 := by
    rw [div_le_iff₀ (by norm_num : (0 : ℝ) < 4095)]
    have : (i : ℝ) ≤ 12 := by exact_mod_cast hi12
    linarith
  have hout : round ((i : ℝ) / 4095 * 12.92 * 255) = (c : ℤ) := by
    rw [round_eq]
    apply Int.floor_eq_iff.mpr
    constructor
    · push_cast; linarith
    · push_cast; linarith
  rw [hdec]
  unfold linear_to_srgb
  rw [hround]
  simp only [Int.toNat_natCast]
  rw [if_pos hbin]
  unfold u8round
  rw [hout]
  simp only [Int.toNat_natCast]
  exact min_eq_left (by omega)

/-- Conjunction form of the integer side conditions of
`srgb_roundtrip_pow_nat`, so each byte case is one `decide`. -/
theorem srgb_roundtrip_pow_nat2 (c i a1 a2 : ℕ)
    (h : 11 ≤ c ∧ c ≤ 255 ∧ 13 ≤ i ∧
      a1 ^ 5 * 10761 ^ 12 ≤ (40 * c + 561) ^ 12 * 10 ^ 50 ∧
      (40 * c + 561) ^ 12 * 10 ^ 50 ≤ (a1 + 2) ^ 5 * 10761 ^ 12 ∧
      2 * i * 10 ^ 10 ≤ 8190 * a1 + 10 ^ 10 ∧
      8190 * (a1 + 2) + 10 ^ 10 < 2 * (i + 1) * 10 ^ 10 ∧
      a2 ^ 12 * 4095 ^ 5 ≤ i ^ 5 * 10 ^ 84 ∧
      i ^ 5 * 10 ^ 84 ≤ (a2 + 2) ^ 12 * 4095 ^ 5 ∧
      4 * 10 ^ 9 * c + 561 * 10 ^ 8 ≤ 107610 * a2 + 2 * 10 ^ 9 ∧
      107610 * (a2 + 2) + 2 * 10 ^ 9 < 4 * 10 ^ 9 * (c + 1) + 561 * 10 ^ 8) :
    linear_to_srgb (srgb_to_linear c) = c :=
  srgb_roundtrip_pow_nat c i a1 a2 h.1 h.2.1 h.2.2.1 h.2.2.2.1 h.2.2.2.2.1
    h.2.2.2.2.2.1 h.2.2.2.2.2.2.1 h.2.2.2.2.2.2.2.1 h.2.2.2.2.2.2.2.2.1
    h.2.2.2.2.2.2.2.2.2.1 h.2.2.2.2.2.2.2.2.2.2

set_option maxHeartbeats 4000000 in
/-- The byte-level sRGB round trip of the two lookup tables is the identity. -/
theorem srgb_roundtrip_id (col : ℕ) (h : col ≤ 255) :
    linear_to_srgb (srgb_to_linear col) = col := by
  interval_cases col
  · exact srgb_roundtrip_lin 0 0 (by norm_num) (by norm_num)
      (by norm_num) (by norm_num) (by norm_num) (by norm_num)
  · exact srgb_roundtrip_lin 1 1 (by norm_num) (by norm_num)
      (by norm_num) (by norm_num) (by norm_num) (by norm_num)
  · exact srgb_roundtrip_lin 2 2 (by norm_num) (by norm_num)
      (by norm_num) (by norm_num) (by norm_num) (by norm_num)
  · exact srgb_roundtrip_lin 3 4 (by norm_num) (by norm_num)
      (by norm_num) (by norm_num) (by norm_num) (by norm_num)
  · exact srgb_roundtrip_lin 4 5 (by norm_num) (by norm_num)
      (by norm_num) (by norm_num) (by norm_num) (by norm_num)
  · exact srgb_roundtrip_lin 5 6 (by norm_num) (by norm_num)
      (by norm_num) (by norm_num) (by norm_num) (by norm_num)
  · exact srgb_roundtrip_lin 6 7 (by norm_num) (by norm_num)
      (by norm_num) (by norm_num) (by norm_num) (by norm_num)
  · exact srgb_roundtrip_lin 7 9 (by norm_num) (by norm_num)
      (by norm_num) (by norm_num) (by norm_num) (by norm_num)
  · exact srgb_roundtrip_lin 8 10 (by norm_num) (by norm_num)
      (by norm_num) (by norm_num) (by norm_num) (by norm_num)
  · exact srgb_roundtrip_lin 9 11 (by norm_num) (by norm_num)
      (by norm_num) (by norm_num) (by norm_num) (by norm_num)
  · exact srgb_roundtrip_lin 10 12 (by norm_num) (by norm_num)
      (by norm_num) (by norm_num) (by norm_num) (by norm_num)
  · exact srgb_roundtrip_pow_nat2 11 14 33465357 938528 (by decide)
  · exact srgb_roundtrip_pow_nat2 12 15 36765073 965900 (by decide)
  · exact srgb_roundtrip_pow_nat2 13 16 40247170 992226 (by decide)
  · exact srgb_roundtrip_pow_nat2 14 18 43914420 1042136 (by decide)
  · exact srgb_roundtrip_pow_nat2 15 20 47769534 1088905 (by decide)
  · exact srgb_roundtrip_pow_nat2 16 21 51815167 1111268 (by decide)
  · exact srgb_roundtrip_pow_nat2 17 23 56053916 1154199 (by decide)
  · exact srgb_roundtrip_pow_nat2 18 25 60488330 1195003 (by decide)
  · exact srgb_roundtrip_pow_nat2 19 27 65120907 1233944 (by decide)
  · exact srgb_roundtrip_pow_nat2 20 29 69954101 1271237 (by decide)
  · exact srgb_roundtrip_pow_nat2 21 31 74990320 1307058 (by decide)
  · exact srgb_roundtrip_pow_nat2 22 33 80231929 1341554 (by decide)
  · exact srgb_roundtrip_pow_nat2 23 35 85681256 1374851 (by decide)
  · exact srgb_roundtrip_pow_nat2 24 37 91340587 1407056 (by decide)
  · exact srgb_roundtrip_pow_nat2 25 40 97212173 1453513 (by decide)
  · exact srgb_roundtrip_pow_nat2 26 42 103298230 1483365 (by decide)
  · exact srgb_roundtrip_pow_nat2 27 45 109600940 1526626 (by decide)
  · exact srgb_roundtrip_pow_nat2 28 48 116122451 1568235 (by decide)
  · exact srgb_roundtrip_pow_nat2 29 50 122864883 1595138 (by decide)
  · exact srgb_roundtrip_pow_nat2 30 53 129830323 1634340 (by decide)
  · exact srgb_roundtrip_pow_nat2 31 56 137020830 1672268 (by decide)
  · exact srgb_roundtrip_pow_nat2 32 59 144438435 1709028 (by decide)
  · exact srgb_roundtrip_pow_nat2 33 62 152085144 1744713 (by decide)
  · exact srgb_roundtrip_pow_nat2 34 66 159962933 1790760 (by decide)
  · exact srgb_roundtrip_pow_nat2 35 69 168073757 1824237 (by decide)
  · exact srgb_roundtrip_pow_nat2 36 72 176419544 1856875 (by decide)
  · exact srgb_roundtrip_pow_nat2 37 76 185002201 1899181 (by decide)
  · exact srgb_roundtrip_pow_nat2 38 79 193823609 1930066 (by decide)
  · exact srgb_roundtrip_pow_nat2 39 83 202885630 1970198 (by decide)
  · exact srgb_roundtrip_pow_nat2 40 87 212190103 2009218 (by decide)
  · exact srgb_roundtrip_pow_nat2 41 91 221738847 2047205 (by decide)
  · exact srgb_roundtrip_pow_nat2 42 95 231533661 2084230 (by decide)
  · exact srgb_roundtrip_pow_nat2 43 99 241576324 2120356 (by decide)
  · exact srgb_roundtrip_pow_nat2 44 103 251868596 2155640 (by decide)
  · exact srgb_roundtrip_pow_nat2 45 107 262412218 2190134 (by decide)
  · exact srgb_roundtrip_pow_nat2 46 112 273208916 2232209 (by decide)
  · exact srgb_roundtrip_pow_nat2 47 116 284260395 2265087 (by decide)
  · exact srgb_roundtrip_pow_nat2 48 121 295568344 2305268 (by decide)
  · exact srgb_roundtrip_pow_nat2 49 126 307134437 2344491 (by decide)
  · exact srgb_roundtrip_pow_nat2 50 131 318960330 2382816 (by decide)
  · exact srgb_roundtrip_pow_nat2 51 136 331047665 2420297 (by decide)
  · exact srgb_roundtrip_pow_nat2 52 141 343398068 2456983 (by decide)
  · exact srgb_roundtrip_pow_nat2 53 146 356013148 2492917 (by decide)
  · exact srgb_roundtrip_pow_nat2 54 151 368894504 2528140 (by decide)
  · exact srgb_roundtrip_pow_nat2 55 156 382043715 2562690 (by decide)
  · exact srgb_roundtrip_pow_nat2 56 162 395462352 2603307 (by decide)
  · exact srgb_roundtrip_pow_nat2 57 168 409151969 2643056 (by decide)
  · exact srgb_roundtrip_pow_nat2 58 173 423114106 2675552 (by decide)
  · exact srgb_roundtrip_pow_nat2 59 179 437350292 2713832 (by decide)
  · exact srgb_roundtrip_pow_nat2 60 185 451862043 2751370 (by decide)
  · exact srgb_roundtrip_pow_nat2 61 191 466650863 2788205 (by decide)
  · exact srgb_roundtrip_pow_nat2 62 197 481718242 2824371 (by decide)
  · exact srgb_roundtrip_pow_nat2 63 204 497065659 2865761 (by decide)
  · exact srgb_roundtrip_pow_nat2 64 210 512694583 2900584 (by decide)
  · exact srgb_roundtrip_pow_nat2 65 216 528606470 2934832 (by decide)
  · exact srgb_roundtrip_pow_nat2 66 223 544802764 2974093 (by decide)
  · exact srgb_roundtrip_pow_nat2 67 230 561284900 3012641 (by decide)
  · exact srgb_roundtrip_pow_nat2 68 237 578054301 3050511 (by decide)
  · exact srgb_roundtrip_pow_nat2 69 244 595112381 3087734 (by decide)
  · exact srgb_roundtrip_pow_nat2 70 251 612460542 3124339 (by decide)
  · exact srgb_roundtrip_pow_nat2 71 258 630100176 3160354 (by decide)
  · exact srgb_roundtrip_pow_nat2 72 265 648032666 3195802 (by decide)
  · exact srgb_roundtrip_pow_nat2 73 273 666259386 3235653 (by decide)
  · exact srgb_roundtrip_pow_nat2 74 280 684781698 3269967 (by decide)
  · exact srgb_roundtrip_pow_nat2 75 288 703600956 3308575 (by decide)
  · exact srgb_roundtrip_pow_nat2 76 296 722718506 3346563 (by decide)
  · exact srgb_roundtrip_pow_nat2 77 304 742135683 3383957 (by decide)
  · exact srgb_roundtrip_pow_nat2 78 312 761853814 3420781 (by decide)
  · exact srgb_roundtrip_pow_nat2 79 320 781874218 3457058 (by decide)
  · exact srgb_roundtrip_pow_nat2 80 329 802198203 3497243 (by decide)
  · exact srgb_roundtrip_pow_nat2 81 337 822827071 3532428 (by decide)
  · exact srgb_roundtrip_pow_nat2 82 346 843762115 3571433 (by decide)
  · exact srgb_roundtrip_pow_nat2 83 354 865004620 3605611 (by decide)
  · exact srgb_roundtrip_pow_nat2 84 363 886555862 3643526 (by decide)
  · exact srgb_roundtrip_pow_nat2 85 372 908417111 3680897 (by decide)
  · exact srgb_roundtrip_pow_nat2 86 381 930589628 3717745 (by decide)
  · exact srgb_roundtrip_pow_nat2 87 390 953074666 3754088 (by decide)
  · exact srgb_roundtrip_pow_nat2 88 400 975873471 3793899 (by decide)
  · exact srgb_roundtrip_pow_nat2 89 409 998987282 3829237 (by decide)
  · exact srgb_roundtrip_pow_nat2 90 419 1022417330 3867972 (by decide)
  · exact srgb_roundtrip_pow_nat2 91 428 1046164840 3902375 (by decide)
  · exact srgb_roundtrip_pow_nat2 92 438 1070231029 3940110 (by decide)
  · exact srgb_roundtrip_pow_nat2 93 448 1094617107 3977346 (by decide)
  · exact srgb_roundtrip_pow_nat2 94 458 1119324278 4014099 (by decide)
  · exact srgb_roundtrip_pow_nat2 95 469 1144353738 4053992 (by decide)
  · exact srgb_roundtrip_pow_nat2 96 479 1169706677 4089786 (by decide)
  · exact srgb_roundtrip_pow_nat2 97 490 1195384279 4128661 (by decide)
  · exact srgb_roundtrip_pow_nat2 98 500 1221387722 4163562 (by decide)
  · exact srgb_roundtrip_pow_nat2 99 511 1247718175 4201485 (by decide)
  · exact srgb_roundtrip_pow_nat2 100 522 1274376804 4238936 (by decide)
  · exact srgb_roundtrip_pow_nat2 101 533 1301364766 4275929 (by decide)
  · exact srgb_roundtrip_pow_nat2 102 544 1328683215 4312479 (by decide)
  · exact srgb_roundtrip_pow_nat2 103 555 1356333296 4348601 (by decide)
  · exact srgb_roundtrip_pow_nat2 104 567 1384316150 4387533 (by decide)
  · exact srgb_roundtrip_pow_nat2 105 578 1412632911 4422801 (by decide)
  · exact srgb_roundtrip_pow_nat2 106 590 1441284708 4460832 (by decide)
  · exact srgb_roundtrip_pow_nat2 107 602 1470272664 4498413 (by decide)
  · exact srgb_roundtrip_pow_nat2 108 614 1499597898 4535561 (by decide)
  · exact srgb_roundtrip_pow_nat2 109 626 1529261519 4572287 (by decide)
  · exact srgb_roundtrip_pow_nat2 110 639 1559264637 4611613 (by decide)
  · exact srgb_roundtrip_pow_nat2 111 651 1589608350 4647502 (by decide)
  · exact srgb_roundtrip_pow_nat2 112 664 1620293756 4685949 (by decide)
  · exact srgb_roundtrip_pow_nat2 113 676 1651321945 4721050 (by decide)
  · exact srgb_roundtrip_pow_nat2 114 689 1682694001 4758669 (by decide)
  · exact srgb_roundtrip_pow_nat2 115 702 1714411007 4795876 (by decide)
  · exact srgb_roundtrip_pow_nat2 116 715 1746474036 4832683 (by decide)
  · exact srgb_roundtrip_pow_nat2 117 728 1778884159 4869102 (by decide)
  · exact srgb_roundtrip_pow_nat2 118 742 1811642442 4907901 (by decide)
  · exact srgb_roundtrip_pow_nat2 119 755 1844749945 4943548 (by decide)
  · exact srgb_roundtrip_pow_nat2 120 769 1878207723 4981538 (by decide)
  · exact srgb_roundtrip_pow_nat2 121 783 1912016827 5019128 (by decide)
  · exact srgb_roundtrip_pow_nat2 122 797 1946178304 5056327 (by decide)
  · exact srgb_roundtrip_pow_nat2 123 811 1980693195 5093147 (by decide)
  · exact srgb_roundtrip_pow_nat2 124 825 2015562537 5129598 (by decide)
  · exact srgb_roundtrip_pow_nat2 125 840 2050787363 5168254 (by decide)
  · exact srgb_roundtrip_pow_nat2 126 854 2086368701 5203972 (by decide)
  · exact srgb_roundtrip_pow_nat2 127 869 2122307574 5241864 (by decide)
  · exact srgb_roundtrip_pow_nat2 128 884 2158605001 5279376 (by decide)
  · exact srgb_roundtrip_pow_nat2 129 899 2195261997 5316519 (by decide)
  · exact srgb_roundtrip_pow_nat2 130 914 2232279573 5353302 (by decide)
  · exact srgb_roundtrip_pow_nat2 131 929 2269658735 5389735 (by decide)
  · exact srgb_roundtrip_pow_nat2 132 945 2307400485 5428220 (by decide)
  · exact srgb_roundtrip_pow_nat2 133 960 2345505821 5463956 (by decide)
  · exact srgb_roundtrip_pow_nat2 134 976 2383975738 5501717 (by decide)
  · exact srgb_roundtrip_pow_nat2 135 992 2422811224 5539119 (by decide)
  · exact srgb_roundtrip_pow_nat2 136 1008 2462013267 5576171 (by decide)
  · exact srgb_roundtrip_pow_nat2 137 1024 2501582847 5612881 (by decide)
  · exact srgb_roundtrip_pow_nat2 138 1041 2541520943 5651520 (by decide)
  · exact srgb_roundtrip_pow_nat2 139 1057 2581828529 5687552 (by decide)
  · exact srgb_roundtrip_pow_nat2 140 1074 2622506575 5725489 (by decide)
  · exact srgb_roundtrip_pow_nat2 141 1091 2663556048 5763078 (by decide)
  · exact srgb_roundtrip_pow_nat2 142 1108 2704977910 5800326 (by decide)
  · exact srgb_roundtrip_pow_nat2 143 1125 2746773120 5837242 (by decide)
  · exact srgb_roundtrip_pow_nat2 144 1142 2788942634 5873835 (by decide)
  · exact srgb_roundtrip_pow_nat2 145 1159 2831487404 5910110 (by decide)
  · exact srgb_roundtrip_pow_nat2 146 1177 2874408377 5948184 (by decide)
  · exact srgb_roundtrip_pow_nat2 147 1195 2917706498 5985918 (by decide)
  · exact srgb_roundtrip_pow_nat2 148 1213 2961382707 6023323 (by decide)
  · exact srgb_roundtrip_pow_nat2 149 1231 3005437944 6060406 (by decide)
  · exact srgb_roundtrip_pow_nat2 150 1249 3049873140 6097173 (by decide)
  · exact srgb_roundtrip_pow_nat2 151 1267 3094689228 6133633 (by decide)
  · exact srgb_roundtrip_pow_nat2 152 1286 3139887133 6171791 (by decide)
  · exact srgb_roundtrip_pow_nat2 153 1304 3185467781 6207640 (by decide)
  · exact srgb_roundtrip_pow_nat2 154 1323 3231432091 6245168 (by decide)
  · exact srgb_roundtrip_pow_nat2 155 1342 3277780980 6282383 (by decide)
  · exact srgb_roundtrip_pow_nat2 156 1361 3324515363 6319292 (by decide)
  · exact srgb_roundtrip_pow_nat2 157 1381 3371636150 6357820 (by decide)
  · exact srgb_roundtrip_pow_nat2 158 1400 3419144249 6394121 (by decide)
  · exact srgb_roundtrip_pow_nat2 159 1420 3467040563 6432024 (by decide)
  · exact srgb_roundtrip_pow_nat2 160 1440 3515325995 6469617 (by decide)
  · exact srgb_roundtrip_pow_nat2 161 1459 3564001441 6505049 (by decide)
  · exact srgb_roundtrip_pow_nat2 162 1480 3613067797 6543898 (by decide)
  · exact srgb_roundtrip_pow_nat2 163 1500 3662525955 6580601 (by decide)
  · exact srgb_roundtrip_pow_nat2 164 1520 3712376804 6617018 (by decide)
  · exact srgb_roundtrip_pow_nat2 165 1541 3762621229 6654957 (by decide)
  · exact srgb_roundtrip_pow_nat2 166 1562 3813260114 6692596 (by decide)
  · exact srgb_roundtrip_pow_nat2 167 1582 3864294337 6728169 (by decide)
  · exact srgb_roundtrip_pow_nat2 168 1603 3915724777 6765239 (by decide)
  · exact srgb_roundtrip_pow_nat2 169 1625 3967552307 6803772 (by decide)
  · exact srgb_roundtrip_pow_nat2 170 1646 4019777798 6840270 (by decide)
  · exact srgb_roundtrip_pow_nat2 171 1668 4072402119 6878217 (by decide)
  · exact srgb_roundtrip_pow_nat2 172 1689 4125426134 6914167 (by decide)
  · exact srgb_roundtrip_pow_nat2 173 1711 4178850708 6951550 (by decide)
  · exact srgb_roundtrip_pow_nat2 174 1733 4232676699 6988655 (by decide)
  · exact srgb_roundtrip_pow_nat2 175 1755 4286904966 7025485 (by decide)
  · exact srgb_roundtrip_pow_nat2 176 1778 4341536361 7063703 (by decide)
  · exact srgb_roundtrip_pow_nat2 177 1800 4396571738 7099990 (by decide)
  · exact srgb_roundtrip_pow_nat2 178 1823 4452011945 7137651 (by decide)
  · exact srgb_roundtrip_pow_nat2 179 1846 4507857828 7175035 (by decide)
  · exact srgb_roundtrip_pow_nat2 180 1869 4564110231 7212149 (by decide)
  · exact srgb_roundtrip_pow_nat2 181 1892 4620769996 7248998 (by decide)
  · exact srgb_roundtrip_pow_nat2 182 1916 4677837961 7287171 (by decide)
  · exact srgb_roundtrip_pow_nat2 183 1939 4735314961 7323493 (by decide)
  · exact srgb_roundtrip_pow_nat2 184 1963 4793201831 7361127 (by decide)
  · exact srgb_roundtrip_pow_nat2 185 1987 4851499400 7398493 (by decide)
  · exact srgb_roundtrip_pow_nat2 186 2011 4910208498 7435597 (by decide)
  · exact srgb_roundtrip_pow_nat2 187 2035 4969329950 7472444 (by decide)
  · exact srgb_roundtrip_pow_nat2 188 2059 5028864580 7509038 (by decide)
  · exact srgb_roundtrip_pow_nat2 189 2084 5088813208 7546894 (by decide)
  · exact srgb_roundtrip_pow_nat2 190 2109 5149176653 7584485 (by decide)
  · exact srgb_roundtrip_pow_nat2 191 2133 5209955732 7620329 (by decide)
  · exact srgb_roundtrip_pow_nat2 192 2159 5271151257 7658895 (by decide)
  · exact srgb_roundtrip_pow_nat2 193 2184 5332764040 7695723 (by decide)
  · exact srgb_roundtrip_pow_nat2 194 2209 5394794890 7732306 (by decide)
  · exact srgb_roundtrip_pow_nat2 195 2235 5457244613 7770098 (by decide)
  · exact srgb_roundtrip_pow_nat2 196 2260 5520114015 7806194 (by decide)
  · exact srgb_roundtrip_pow_nat2 197 2286 5583403896 7843489 (by decide)
  · exact srgb_roundtrip_pow_nat2 198 2312 5647115057 7880536 (by decide)
  · exact srgb_roundtrip_pow_nat2 199 2339 5711248294 7918753 (by decide)
  · exact srgb_roundtrip_pow_nat2 200 2365 5775804404 7955311 (by decide)
  · exact srgb_roundtrip_pow_nat2 201 2392 5840784178 7993028 (by decide)
  · exact srgb_roundtrip_pow_nat2 202 2419 5906188409 8030498 (by decide)
  · exact srgb_roundtrip_pow_nat2 203 2446 5972017883 8067724 (by decide)
  · exact srgb_roundtrip_pow_nat2 204 2473 6038273388 8104712 (by decide)
  · exact srgb_roundtrip_pow_nat2 205 2500 6104955708 8141464 (by decide)
  · exact srgb_roundtrip_pow_nat2 206 2527 6172065624 8177986 (by decide)
  · exact srgb_roundtrip_pow_nat2 207 2555 6239603916 8215621 (by decide)
  · exact srgb_roundtrip_pow_nat2 208 2583 6307571363 8253016 (by decide)
  · exact srgb_roundtrip_pow_nat2 209 2611 6375968739 8290175 (by decide)
  · exact srgb_roundtrip_pow_nat2 210 2639 6444796819 8327103 (by decide)
  · exact srgb_roundtrip_pow_nat2 211 2668 6514056374 8365109 (by decide)
  · exact srgb_roundtrip_pow_nat2 212 2696 6583748172 8401577 (by decide)
  · exact srgb_roundtrip_pow_nat2 213 2725 6653872982 8439115 (by decide)
  · exact srgb_roundtrip_pow_nat2 214 2754 6724431569 8476420 (by decide)
  · exact srgb_roundtrip_pow_nat2 215 2783 6795424696 8513498 (by decide)
  · exact srgb_roundtrip_pow_nat2 216 2812 6866853124 8550350 (by decide)
  · exact srgb_roundtrip_pow_nat2 217 2841 6938717612 8586982 (by decide)
  · exact srgb_roundtrip_pow_nat2 218 2871 7011018919 8624647 (by decide)
  · exact srgb_roundtrip_pow_nat2 219 2901 7083757798 8662084 (by decide)
  · exact srgb_roundtrip_pow_nat2 220 2931 7156935005 8699296 (by decide)
  · exact srgb_roundtrip_pow_nat2 221 2961 7230551289 8736286 (by decide)
  · exact srgb_roundtrip_pow_nat2 222 2991 7304607400 8773058 (by decide)
  · exact srgb_roundtrip_pow_nat2 223 3022 7379104087 8810831 (by decide)
  · exact srgb_roundtrip_pow_nat2 224 3052 7454042095 8847171 (by decide)
  · exact srgb_roundtrip_pow_nat2 225 3083 7529422167 8884503 (by decide)
  · exact srgb_roundtrip_pow_nat2 226 3114 7605245046 8921618 (by decide)
  · exact srgb_roundtrip_pow_nat2 227 3146 7681511472 8959704 (by decide)
  · exact srgb_roundtrip_pow_nat2 228 3177 7758222183 8996385 (by decide)
  · exact srgb_roundtrip_pow_nat2 229 3209 7835377915 9034031 (by decide)
  · exact srgb_roundtrip_pow_nat2 230 3240 7912979403 9070292 (by decide)
  · exact srgb_roundtrip_pow_nat2 231 3272 7991027380 9107511 (by decide)
  · exact srgb_roundtrip_pow_nat2 232 3304 8069522576 9144519 (by decide)
  · exact srgb_roundtrip_pow_nat2 233 3337 8148465722 9182465 (by decide)
  · exact srgb_roundtrip_pow_nat2 234 3369 8227857543 9219052 (by decide)
  · exact srgb_roundtrip_pow_nat2 235 3402 8307698767 9256571 (by decide)
  · exact srgb_roundtrip_pow_nat2 236 3435 8387990117 9293879 (by decide)
  · exact srgb_roundtrip_pow_nat2 237 3468 8468732315 9330977 (by decide)
  · exact srgb_roundtrip_pow_nat2 238 3501 8549926081 9367871 (by decide)
  · exact srgb_roundtrip_pow_nat2 239 3535 8631572134 9405671 (by decide)
  · exact srgb_roundtrip_pow_nat2 240 3568 8713671191 9442157 (by decide)
  · exact srgb_roundtrip_pow_nat2 241 3602 8796223968 9479543 (by decide)
  · exact srgb_roundtrip_pow_nat2 242 3636 8879231178 9516724 (by decide)
  · exact srgb_roundtrip_pow_nat2 243 3670 8962693533 9553702 (by decide)
  · exact srgb_roundtrip_pow_nat2 244 3705 9046611743 9591561 (by decide)
  · exact srgb_roundtrip_pow_nat2 245 3739 9130986517 9628138 (by decide)
  · exact srgb_roundtrip_pow_nat2 246 3774 9215818562 9665589 (by decide)
  · exact srgb_roundtrip_pow_nat2 247 3809 9301108583 9702837 (by decide)
  · exact srgb_roundtrip_pow_nat2 248 3844 9386857284 9739887 (by decide)
  · exact srgb_roundtrip_pow_nat2 249 3879 9473065367 9776741 (by decide)
  · exact srgb_roundtrip_pow_nat2 250 3915 9559733532 9814445 (by decide)
  · exact srgb_roundtrip_pow_nat2 251 3950 9646862478 9850909 (by decide)
  · exact srgb_roundtrip_pow_nat2 252 3986 9734452903 9888219 (by decide)
  · exact srgb_roundtrip_pow_nat2 253 4022 9822505503 9925332 (by decide)
  · exact srgb_roundtrip_pow_nat2 254 4059 9911020971 9963275 (by decide)
  · exact srgb_roundtrip_pow_nat2 255 4095 10000000000 10000000 (by decide)

/-! ## C6: uniform input is preserved through the mip chain -/

theorem map_sum_const_nat {α : Type} (l : List α) (f : α → ℕ) (v : ℕ)
    (h : ∀ q ∈ l, f q = v) : (l.map f).sum = l.length * v := by
  induction l with
  | nil => simp
  | cons a t ih =>
    simp only [List.map_cons, List.sum_cons, List.length_cons]
    rw [h a (by simp), ih (fun q hq => h q (by simp [hq]))]
    ring

theorem map_sum_const_real {α : Type} (l : List α) (f : α → ℝ) (v : ℝ)
    (h : ∀ q ∈ l, f q = v) : (l.map f).sum = (l.length : ℝ) * v := by
  induction l with
  | nil => simp
  | cons a t ih =>
    simp only [List.map_cons, List.sum_cons, List.length_cons]
    rw [h a (by simp), ih (fun q hq => h q (by simp [hq]))]
    push_cast
    ring

/-- `average_block` at the linear mode, with the match and lets reduced. -/
theorem average_block_linear_eq (blk : List Px) :
    average_block blk MipmapMode.Linear =
      ((blk.map fun p => p.1).sum / blk.length,
       (blk.map fun p => p.2.1).sum / blk.length,
       (blk.map fun p => p.2.2.1).sum / blk.length,
       (blk.map fun p => p.2.2.2).sum / blk.length) := rfl

/-- `average_block` at the sRGB mode, with the match and lets reduced. -/
theorem average_block_srgb_eq (blk : List Px) :
    average_block blk MipmapMode.Srgb =
      (linear_to_srgb ((blk.map fun p => srgb_to_linear p.1).sum / (blk.length : ℝ)),
       linear_to_srgb ((blk.map fun p => srgb_to_linear p.2.1).sum / (blk.length : ℝ)),
       linear_to_srgb ((blk.map fun p => srgb_to_linear p.2.2.1).sum / (blk.length : ℝ)),
       (blk.map fun p => p.2.2.2).sum / blk.length) := rfl

/-- Averaging a nonempty all-`p` block in linear mode returns `p` exactly. -/
theorem average_block_uniform_linear (blk : List Px) (p : Px)
    (hall : ∀ q ∈ blk, q = p) (hne : blk ≠ []) :
    average_block blk MipmapMode.Linear = p := by
  have hn : blk.length ≠ 0 := by simpa [List.length_eq_zero] using hne
  obtain ⟨a, b, c', d⟩ := p
  rw [average_block_linear_eq]
  rw [map_sum_const_nat blk _ a (fun q hq => by rw [hall q hq]),
    map_sum_const_nat blk _ b (fun q hq => by rw [hall q hq]),
    map_sum_const_nat blk _ c' (fun q hq => by rw [hall q hq]),
    map_sum_const_nat blk _ d (fun q hq => by rw [hall q hq])]
  simp only [Nat.mul_div_cancel_left _ (Nat.pos_of_ne_zero hn)]

/-- Averaging a nonempty all-`p` block in sRGB mode returns `p` exactly: the
linear average of equal values is the value itself, and the byte round trip
through the two lookup tables is the identity. -/
theorem average_block_uniform_srgb (blk : List Px) (p : Px)
    (h255 : p.1 ≤ 255 ∧ p.2.1 ≤ 255 ∧ p.2.2.1 ≤ 255)
    (hall : ∀ q ∈ blk, q = p) (hne : blk ≠ []) :
    average_block blk MipmapMode.Srgb = p := by
  have hn : blk.length ≠ 0 := by simpa [List.length_eq_zero] using hne
  have hnr : (blk.length : ℝ) ≠ 0 := Nat.cast_ne_zero.mpr hn
  obtain ⟨a, b, c', d⟩ := p
  rw [average_block_srgb_eq]
  rw [map_sum_const_real blk _ (srgb_to_linear a) (fun q hq => by rw [hall q hq]),
    map_sum_const_real blk _ (srgb_to_linear b) (fun q hq => by rw [hall q hq]),
    map_sum_const_real blk _ (srgb_to_linear c') (fun q hq => by rw [hall q hq]),
    map_sum_const_nat blk _ d (fun q hq => by rw [hall q hq])]
  rw [mul_div_cancel_left₀ _ hnr, mul_div_cancel_left₀ _ hnr,
    mul_div_cancel_left₀ _ hnr,
    Nat.mul_div_cancel_left _ (Nat.pos_of_ne_zero hn)]
  rw [srgb_roundtrip_id a h255.1, srgb_roundtrip_id b h255.2.1,
    srgb_roundtrip_id c' h255.2.2]

/-- Every pixel of a clamped 2×2 source block of an all-`p` level is `p`. -/
theorem mip_block_all (prev : List Px) (p : Px) (cw ch x y : ℕ)
    (huni : ∀ q ∈ prev, q = p) (hlen : prev.length = ch * cw) :
    ∀ q ∈ mip_block prev cw ch x y, q = p := by
  intro q hq
  unfold mip_block at hq
  rw [List.mem_map] at hq
  obtain ⟨d, hd, rfl⟩ := hq
  rw [List.mem_filter] at hd
  obtain ⟨_, hcond⟩ := hd
  simp only [Bool.and_eq_true, decide_eq_true_eq] at hcond
  obtain ⟨hy, hx⟩ := hcond
  have hidx : (y * 2 + d.1) * cw + (x * 2 + d.2) < prev.length := by
    rw [hlen]
    calc (y * 2 + d.1) * cw + (x * 2 + d.2) < (y * 2 + d.1) * cw + cw := by omega
      _ = (y * 2 + d.1 + 1) * cw := by ring
      _ ≤ ch * cw := Nat.mul_le_mul_right cw (by omega)
  rw [List.getD_eq_getElem prev _ hidx]
  exact huni _ (List.getElem_mem hidx)

/-- The clamped source block is nonempty whenever the target pixel is in
range of the halved level. -/
theorem mip_block_ne_nil (prev : List Px) (cw ch x y : ℕ)
    (hcw : 1 ≤ cw) (hch : 1 ≤ ch)
    (hx : x < max cw 2 / 2) (hy : y < max ch 2 / 2) :
    mip_block prev cw ch x y ≠ [] := by
  have hx2 : x * 2 < cw := by omega
  have hy2 : y * 2 < ch := by omega
  unfold mip_block
  intro hcontra
  have : ((0, 0) : ℕ × ℕ) ∈ [((0 : ℕ), (0 : ℕ)), (0, 1), (1, 0), (1, 1)].filter
      fun d : ℕ × ℕ => decide (y * 2 + d.1 < ch) && decide (x * 2 + d.2 < cw) := by
    rw [List.mem_filter]
    refine ⟨by simp, ?_⟩
    simp only [Bool.and_eq_true, decide_eq_true_eq]
    omega
  rw [List.map_eq_nil_iff] at hcontra
  rw [hcontra] at this
  simp at this

/-- One mip halving step preserves all-`p` uniformity for the linear and sRGB
modes. -/
theorem next_mip_level_all (mode : MipmapMode)
    (hmode : mode = MipmapMode.Linear ∨ mode = MipmapMode.Srgb) (p : Px)
    (h255 : p.1 ≤ 255 ∧ p.2.1 ≤ 255 ∧ p.2.2.1 ≤ 255)
    (prev : List Px) (cw ch : ℕ) (hcw : 1 ≤ cw) (hch : 1 ≤ ch)
    (hlen : prev.length = ch * cw) (huni : ∀ q ∈ prev, q = p) :
    ∀ q ∈ next_mip_level prev cw ch mode, q = p := by
  intro q hq
  unfold next_mip_level at hq
  rw [List.mem_flatMap] at hq
  obtain ⟨y, hy, hq⟩ := hq
  rw [List.mem_map] at hq
  obtain ⟨x, hx, rfl⟩ := hq
  rw [List.mem_range] at hy hx
  have hball := mip_block_all prev p cw ch x y huni hlen
  have hbne := mip_block_ne_nil prev cw ch x y hcw hch hx hy
  rcases hmode with hm | hm <;> rw [hm]
  · exact average_block_uniform_linear _ p hball hbne
  · exact average_block_uniform_srgb _ p h255 hball hbne

theorem next_mip_level_length (prev : List Px) (cw ch : ℕ) (mode : MipmapMode) :
    (next_mip_level prev cw ch mode).length = (max ch 2 / 2) * (max cw 2 / 2) := by
  unfold next_mip_level
  rw [flatMap_length_const _ _ (max cw 2 / 2) (fun a _ => by simp)]
  simp

/-- The loop measure of `mip_chain` strictly decreases on every iteration. -/
theorem mip_measure_decreases (w h : ℕ) (hcond : ¬(w ≤ 1 ∧ h ≤ 1)) :
    max (max w 2 / 2) 1 + max (max h 2 / 2) 1 < max w 1 + max h 1 := by
  omega

/-- Level 0 is always the head of the mip chain. -/
theorem mip_chain_head (mode : MipmapMode) (level : List Px) (w h : ℕ) :
    level ∈ mip_chain mode level w h := by
  rw [mip_chain]
  split_ifs with hc
  · simp
  · simp

/-- All-`p` uniformity propagates to every level of the mip chain, for the
linear and sRGB modes. -/
theorem mip_chain_all (mode : MipmapMode)
    (hmode : mode = MipmapMode.Linear ∨ mode = MipmapMode.Srgb) (p : Px)
    (h255 : p.1 ≤ 255 ∧ p.2.1 ≤ 255 ∧ p.2.2.1 ≤ 255) :
    ∀ (N w h : ℕ) (level : List Px), max w 1 + max h 1 ≤ N → 1 ≤ w → 1 ≤ h →
      level.length = h * w → (∀ q ∈ level, q = p) →
      ∀ lvl ∈ mip_chain mode level w h, ∀ q ∈ lvl, q = p := by
  intro N
  induction N with
  | zero => intro w h level hN; omega
  | succ n ih =>
    intro w h level hN hw hh hlen huni lvl hlvl q hq
    rw [mip_chain] at hlvl
    split_ifs at hlvl with hc
    · rw [List.mem_singleton] at hlvl
      exact huni q (hlvl ▸ hq)
    · rw [List.mem_cons] at hlvl
      rcases hlvl with rfl | hlvl
      · exact huni q hq
      · have hnext_uni := next_mip_level_all mode hmode p h255 level w h hw hh
          (by rw [hlen]) huni
        have hnext_len := next_mip_level_length level w h mode
        have hmeas := mip_measure_decreases w h hc
        exact ih (max w 2 / 2) (max h 2 / 2) (next_mip_level level w h mode)
          (by omega) (by omega) (by omega) hnext_len hnext_uni lvl hlvl q hq

/-- C6: mip generation is idempotent on uniform input: for a base RGBA8 image
in which every pixel has the same colour, every pixel of every generated mip
level equals that colour to within one byte of quantisation (in fact exactly),
for both the sRGB colour and the linear averaging modes. -/
theorem mipmap_uniform_within_one_byte (mode : MipmapMode)
    (hmode : mode = MipmapMode.Linear ∨ mode = MipmapMode.Srgb) (p : Px)
    (h255 : p.1 ≤ 255 ∧ p.2.1 ≤ 255 ∧ p.2.2.1 ≤ 255 ∧ p.2.2.2 ≤ 255)
    (w h : ℕ) (hw : 1 ≤ w) (hh : 1 ≤ h) (base : List Px)
    (hlen : base.length = h * w) (hbase : ∀ q ∈ base, q = p) :
    ∀ lvl ∈ mip_chain mode base w h, ∀ q ∈ lvl,
      ((q.1 : ℤ) - p.1).natAbs ≤ 1 ∧ ((q.2.1 : ℤ) - p.2.1).natAbs ≤ 1 ∧
        ((q.2.2.1 : ℤ) - p.2.2.1).natAbs ≤ 1 ∧
        ((q.2.2.2 : ℤ) - p.2.2.2).natAbs ≤ 1 := by
  intro lvl hlvl q hq
  have hqp : q = p := mip_chain_all mode hmode p ⟨h255.1, h255.2.1, h255.2.2.1⟩
    (max w 1 + max h 1) w h base le_rfl hw hh hlen hbase lvl hlvl q hq
  rw [hqp]
  simp

/-- Witness for C6: the uniform pixel `(7,13,200,255)` on a 2×2 base in linear
mode, evaluated at level 0 and its own pixel. -/
theorem mipmap_uniform_within_one_byte_witness :
    ((((7 : ℕ), (13 : ℕ), (200 : ℕ), (255 : ℕ)).1 : ℤ) - 7).natAbs ≤ 1 ∧
      ((((7 : ℕ), (13 : ℕ), (200 : ℕ), (255 : ℕ)).2.1 : ℤ) - 13).natAbs ≤ 1 ∧
      ((((7 : ℕ), (13 : ℕ), (200 : ℕ), (255 : ℕ)).2.2.1 : ℤ) - 200).natAbs ≤ 1 ∧
      ((((7 : ℕ), (13 : ℕ), (200 : ℕ), (255 : ℕ)).2.2.2 : ℤ) - 255).natAbs ≤ 1 :=
  mipmap_uniform_within_one_byte MipmapMode.Linear (Or.inl rfl)
    (7, 13, 200, 255) (by norm_num) 2 2 (by norm_num) (by norm_num)
    (List.replicate 4 (7, 13, 200, 255)) (by simp)
    (fun q hq => by simpa using List.eq_of_mem_replicate hq)
    (List.replicate 4 (7, 13, 200, 255))
    (mip_chain_head _ _ 2 2) (7, 13, 200, 255) (by simp)

end SymbiosTexture
